import Mathlib

/-!
# Trace lifecycle store of mlflow-go-backend

A shallow embedding of `pkg/tracking/service/trace.go`,
`pkg/tracking/store/sql/trace.go`, `pkg/tracking/store/sql/models/trace_info.go`
and `pkg/entities/trace_*.go`.

* Go structs become Lean structures with the same field names.
* A Go pointer or nil-able slice that the code tests against `nil` becomes an `Option`.
* `int64` and `int32` values are integers; where the code computes with them the
  result is reduced to the machine range (`wrapInt64`, `wrapInt32`).
* The relational database is an explicit state `DB` holding the three tables; every
  store method takes the state and returns its result together with the new state.
* `TrackingService` reaches the store through the `Store` interface, as in the source.
-/

set_option autoImplicit false

namespace Mlflow

/-! ## Machine integers -/

/-- Reduce an integer to the signed 64-bit range (Go `int64` arithmetic wraps). -/
def wrapInt64 (x : Int) : Int := (x + 2 ^ 63) % 2 ^ 64 - 2 ^ 63

/-- Reduce an integer to the signed 32-bit range (Go conversion `int32(n)`). -/
def wrapInt32 (x : Int) : Int := (x + 2 ^ 31) % 2 ^ 32 - 2 ^ 31

/-! ## Errors -/

/-- The members of `protos.ErrorCode` that the trace code uses. -/
inductive ErrorCode where
  | INTERNAL_ERROR
  | INVALID_PARAMETER_VALUE
  | RESOURCE_DOES_NOT_EXIST
  deriving DecidableEq, Repr

/-- The struct `contract.Error`: a code, a message and, for `contract.NewErrorWith`,
the text of the wrapped cause. -/
structure Error where
  Code : ErrorCode
  Message : String
  Inner : Option String := none
  deriving DecidableEq, Repr

/-- The constructor `contract.NewError(code, message)`. -/
def NewError (code : ErrorCode) (message : String) : Error :=
  { Code := code, Message := message }

/-- The constructor `contract.NewErrorWith(code, message, err)`. -/
def NewErrorWith (code : ErrorCode) (message : String) (inner : String) : Error :=
  { Code := code, Message := message, Inner := some inner }

/-! ## Entities (`pkg/entities`) -/

namespace entities

/-- The struct `entities.TraceTag`. -/
structure TraceTag where
  Key : String
  Value : String
  RequestID : String := ""
  deriving DecidableEq, Repr

/-- The struct `entities.TraceRequestMetadata`. -/
structure TraceRequestMetadata where
  Key : String
  Value : String
  RequestID : String := ""
  deriving DecidableEq, Repr

/-- The struct `entities.TraceInfo`. -/
structure TraceInfo where
  RequestID : String
  Status : String
  ExperimentID : String
  TimestampMS : Int
  ExecutionTimeMS : Option Int
  Tags : List TraceTag
  TraceRequestMetadata : List TraceRequestMetadata
  deriving DecidableEq, Repr

/-- The struct `entities.TraceInfoV3`. -/
structure TraceInfoV3 where
  Status : String
  RequestID : String
  ClientRequestID : Option String
  ExperimentID : String
  RequestPreview : Option String
  ResponsePreview : Option String
  TimestampMS : Int
  ExecutionTimeMS : Option Int
  Tags : List TraceTag
  TraceRequestMetadata : List TraceRequestMetadata
  deriving DecidableEq, Repr

/-- The struct `entities.Experiment`, as far as the trace code reads it. -/
structure Experiment where
  ExperimentID : String
  ArtifactLocation : String
  deriving DecidableEq, Repr

end entities

/-! ## Database rows (`pkg/tracking/store/sql/models`) -/

namespace models

/-- The status constant `TraceInfoStatusUnspecified`. -/
def TraceInfoStatusUnspecified : String := "TRACE_STATUS_UNSPECIFIED"
/-- The status constant `TraceInfoStatusOk`. -/
def TraceInfoStatusOk : String := "OK"
/-- The status constant `TraceInfoStatusError`. -/
def TraceInfoStatusError : String := "ERROR"
/-- The status constant `TraceInfoStatusInProgress`. -/
def TraceInfoStatusInProgress : String := "IN_PROGRESS"

/-- The row struct `models.TraceTag` of table `trace_tags`, keyed by `(request_id, key)`. -/
structure TraceTag where
  Key : String
  Value : String
  RequestID : String
  deriving DecidableEq, Repr

/-- The row struct `models.TraceRequestMetadata` of table `trace_request_metadata`. -/
structure TraceRequestMetadata where
  Key : String
  Value : String
  RequestID : String
  deriving DecidableEq, Repr

/-- Modelled from the spec: `models.NewTraceTagFromEntity(requestID, tag)` is defined
outside the embedded sources; it builds the row of the tag under the `request_id`. -/
def NewTraceTagFromEntity (requestID : String) (tag : entities.TraceTag) : TraceTag :=
  { Key := tag.Key, Value := tag.Value, RequestID := requestID }

/-- Modelled from the spec: `models.NewTraceRequestMetadataFromEntity(requestID, m)` is
defined outside the embedded sources; it builds the row of the entry under the
`request_id`. -/
def NewTraceRequestMetadataFromEntity (requestID : String)
    (m : entities.TraceRequestMetadata) : TraceRequestMetadata :=
  { Key := m.Key, Value := m.Value, RequestID := requestID }

/-- Modelled from the spec: `models.TraceTag.ToEntity` is defined outside the embedded
sources; the entity has the same three fields as the row. -/
def TraceTag.ToEntity (t : TraceTag) : entities.TraceTag :=
  { Key := t.Key, Value := t.Value, RequestID := t.RequestID }

/-- Modelled from the spec: `models.TraceRequestMetadata.ToEntity` is defined outside
the embedded sources; the entity has the same three fields as the row. -/
def TraceRequestMetadata.ToEntity (m : TraceRequestMetadata) : entities.TraceRequestMetadata :=
  { Key := m.Key, Value := m.Value, RequestID := m.RequestID }

/-- The struct `models.TraceInfo`: the columns of table `trace_info` and the two
has-many associations. A `sql.NullInt64` or `sql.NullString` is an `Option`
(`Valid` is `isSome`). -/
structure TraceInfo where
  RequestID : String
  ExperimentID : String
  ClientRequestID : Option String := none
  RequestPreview : Option String := none
  ResponsePreview : Option String := none
  TimestampMS : Int
  ExecutionTimeMS : Option Int := none
  Status : String
  Tags : List TraceTag := []
  TraceRequestMetadata : List TraceRequestMetadata := []
  deriving DecidableEq, Repr

/-- The method `models.TraceInfo.ToEntity`. -/
def TraceInfo.ToEntity (ti : TraceInfo) : entities.TraceInfo :=
  { Tags := ti.Tags.map TraceTag.ToEntity
    Status := ti.Status
    RequestID := ti.RequestID
    ExperimentID := ti.ExperimentID
    TimestampMS := ti.TimestampMS
    ExecutionTimeMS := ti.ExecutionTimeMS
    TraceRequestMetadata := ti.TraceRequestMetadata.map TraceRequestMetadata.ToEntity }

/-- The method `models.TraceInfo.ToTraceInfoV3Entity`. -/
def TraceInfo.ToTraceInfoV3Entity (ti : TraceInfo) : entities.TraceInfoV3 :=
  { Tags := ti.Tags.map TraceTag.ToEntity
    Status := ti.Status
    RequestID := ti.RequestID
    ExperimentID := ti.ExperimentID
    TimestampMS := ti.TimestampMS
    ExecutionTimeMS := ti.ExecutionTimeMS
    ClientRequestID := ti.ClientRequestID
    ResponsePreview := ti.ResponsePreview
    RequestPreview := ti.RequestPreview
    TraceRequestMetadata := ti.TraceRequestMetadata.map TraceRequestMetadata.ToEntity }

end models

/-! ## The database state -/

/-- The relational state behind `TrackingSQLStore`: the experiments and the three
trace tables. Rows of `trace_info` keep their association fields empty; the
associations live in the child tables and are joined by `request_id`. -/
structure DB where
  experiments : List entities.Experiment := []
  trace_info : List models.TraceInfo := []
  trace_tags : List models.TraceTag := []
  trace_request_metadata : List models.TraceRequestMetadata := []
  deriving DecidableEq, Repr

/-- What the backing engine does to the statements of one `EndTrace` call after the
first lookup: for each statement the text of the error it fails with, if it fails.
`update` is the `UpdateColumns` statement, `createTraceTags` and `createTraceMetadata`
the two batch inserts, `commit` the commit of the transaction, and `refetch` the second
`GetTraceInfo`. -/
structure EndTraceFaults where
  update : Option String := none
  createTraceTags : Option String := none
  createTraceMetadata : Option String := none
  commit : Option String := none
  refetch : Option String := none
  deriving DecidableEq, Repr

/-- What the trace code takes from outside the embedded sources: the reserved key and
the location that `GetTraceArtifactLocationTag` synthesizes (none when the
synthesis fails), how an error is rendered by `%v`, and the failures of the backing
engine during an `EndTrace` call (none unless stated). -/
structure Env where
  artifactLocationKey : String
  artifactLocation : entities.Experiment → String → Option String
  errorText : Error → String
  quoted : String → String
  endTraceFaults : EndTraceFaults := {}

/-! ## The SQL store (`pkg/tracking/store/sql/trace.go`) -/

/-- The reserved tag key by which a caller pins the `request_id`. -/
def mockRequestIDTagKey : String := "mock.generate_request_id.go.testing.tag"

/-- Modelled from the spec: `TrackingSQLStore.GetExperiment` is defined outside the embedded sources;
the spec gives `resolveExperiment(id) → experiment record | not-found`. -/
def GetExperiment (db : DB) (experimentID : String) : Except Error entities.Experiment :=
  match db.experiments.find? (fun e => e.ExperimentID == experimentID) with
  | some e => .ok e
  | none =>
    .error (NewError .RESOURCE_DOES_NOT_EXIST
      ("No Experiment with id=" ++ experimentID ++ " exists"))

/-- Modelled from the spec: `GetTraceArtifactLocationTag` is defined outside the embedded sources; the
spec gives `locationTag(experiment, requestID) → tag | failure`, a tag under the
reserved artifact-location key. -/
def GetTraceArtifactLocationTag (env : Env) (experiment : entities.Experiment)
    (requestID : String) : Except String models.TraceTag :=
  match env.artifactLocation experiment requestID with
  | some location =>
    .ok { Key := env.artifactLocationKey, Value := location, RequestID := requestID }
  | none => .error "failed to create trace artifact location"

/-- Insert of a child row by the ORM when it saves an association: a row whose
primary key `(request_id, key)` is already present is left as it is. -/
def insertTagIfAbsent (rows : List models.TraceTag) (t : models.TraceTag) :
    List models.TraceTag :=
  if rows.any (fun r => r.RequestID == t.RequestID && r.Key == t.Key) then rows
  else rows ++ [t]

/-- Insert of a metadata row (see `insertTagIfAbsent`). -/
def insertMetadataIfAbsent (rows : List models.TraceRequestMetadata)
    (m : models.TraceRequestMetadata) : List models.TraceRequestMetadata :=
  if rows.any (fun r => r.RequestID == m.RequestID && r.Key == m.Key) then rows
  else rows ++ [m]

/-- Insert with `ON CONFLICT (key, request_id) DO UPDATE SET value`: the row with the
same primary key gets the new value, otherwise the row is added. -/
def upsertTag (rows : List models.TraceTag) (t : models.TraceTag) : List models.TraceTag :=
  if rows.any (fun r => r.RequestID == t.RequestID && r.Key == t.Key) then
    rows.map (fun r =>
      if r.RequestID == t.RequestID && r.Key == t.Key then { r with Value := t.Value } else r)
  else rows ++ [t]

/-- Upsert of a metadata row (see `upsertTag`). -/
def upsertMetadata (rows : List models.TraceRequestMetadata)
    (m : models.TraceRequestMetadata) : List models.TraceRequestMetadata :=
  if rows.any (fun r => r.RequestID == m.RequestID && r.Key == m.Key) then
    rows.map (fun r =>
      if r.RequestID == m.RequestID && r.Key == m.Key then { r with Value := m.Value } else r)
  else rows ++ [m]

/-- The ORM call `db.Create(&traceInfo)` on a trace with its two has-many
associations, in one transaction. The insert of the trace row fails on a `request_id`
that is already a primary key of `trace_info` (nothing is written then). The ORM
assigns the owner's `request_id` to the foreign key of every child, in the struct and
in the row it writes, and writes the children with `insertTagIfAbsent`. The result is
the new state and the struct as the ORM leaves it. -/
def Create (db : DB) (ti : models.TraceInfo) : Option (DB × models.TraceInfo) :=
  if db.trace_info.any (fun r => r.RequestID == ti.RequestID) then none
  else
    let tags := ti.Tags.map (fun t => { t with RequestID := ti.RequestID })
    let metadata := ti.TraceRequestMetadata.map (fun m => { m with RequestID := ti.RequestID })
    some
      ({ db with
          trace_info := db.trace_info ++ [{ ti with Tags := [], TraceRequestMetadata := [] }]
          trace_tags := tags.foldl insertTagIfAbsent db.trace_tags
          trace_request_metadata := metadata.foldl insertMetadataIfAbsent db.trace_request_metadata },
        { ti with Tags := tags, TraceRequestMetadata := metadata })

namespace TrackingSQLStore

/-- The loop over the caller's tags in `SetTrace` (lines 40-50): the pair is
`traceInfo.RequestID` and `traceInfo.Tags` as the loop goes. A tag under the reserved
key replaces the `request_id`; any other tag is appended, built with the `request_id`
current at that moment. -/
def SetTrace.tagLoop :
    List entities.TraceTag → String → List models.TraceTag → String × List models.TraceTag
  | [], requestID, acc => (requestID, acc)
  | tag :: rest, requestID, acc =>
    if tag.Key = mockRequestIDTagKey then SetTrace.tagLoop rest tag.Value acc
    else SetTrace.tagLoop rest requestID (acc ++ [models.NewTraceTagFromEntity requestID tag])

/-- The struct `traceInfo` that `SetTrace` has built when it reaches `Create` (lines
26-67), or the error it returned before. `uuid` is the value of `utils.NewUUID()`. -/
def SetTrace.build (env : Env) (uuid : String) (db : DB) (experimentID : String)
    (timestampMS : Int) (metadata : List entities.TraceRequestMetadata)
    (tags : List entities.TraceTag) : Except Error models.TraceInfo :=
  match GetExperiment db experimentID with
  | .error err => .error err
  | .ok experiment =>
    let looped := SetTrace.tagLoop tags uuid []
    match GetTraceArtifactLocationTag env experiment looped.1 with
    | .error cause =>
      .error (NewErrorWith .INTERNAL_ERROR
        ("failed to create trace for experiment_id " ++ env.quoted experimentID) cause)
    | .ok traceArtifactLocationTag =>
      .ok
        { Tags := looped.2 ++ [traceArtifactLocationTag]
          Status := models.TraceInfoStatusInProgress
          RequestID := looped.1
          ExperimentID := experimentID
          TimestampMS := timestampMS
          TraceRequestMetadata :=
            metadata.map (models.NewTraceRequestMetadataFromEntity looped.1) }

/-- The method `TrackingSQLStore.SetTrace`. -/
def SetTrace (env : Env) (uuid : String) (experimentID : String) (timestampMS : Int)
    (metadata : List entities.TraceRequestMetadata) (tags : List entities.TraceTag)
    (db : DB) : Except Error entities.TraceInfo × DB :=
  match SetTrace.build env uuid db experimentID timestampMS metadata tags with
  | .error err => (.error err, db)
  | .ok traceInfo =>
    match Create db traceInfo with
    | none =>
      (.error (NewErrorWith .INTERNAL_ERROR
        ("failed to create trace for experiment_id " ++ env.quoted experimentID)
        "duplicate primary key"), db)
    | some (db', created) => (.ok created.ToEntity, db')

/-- The loop over the caller's tags in `SetTraceV3` (lines 116-126): as in `SetTrace`,
but every appended row is built with `traceInfoV3.RequestID`, the `request_id` of the
input. -/
def SetTraceV3.tagLoop (inputRequestID : String) :
    List entities.TraceTag → String → List models.TraceTag → String × List models.TraceTag
  | [], requestID, acc => (requestID, acc)
  | tag :: rest, requestID, acc =>
    if tag.Key = mockRequestIDTagKey then SetTraceV3.tagLoop inputRequestID rest tag.Value acc
    else
      SetTraceV3.tagLoop inputRequestID rest requestID
        (acc ++ [models.NewTraceTagFromEntity inputRequestID tag])

/-- The field `sql.NullString{String: *p, Valid: p != nil && *p != ""}` once `*p` has
been read. -/
def nullString (v : String) : Option String := if v ≠ "" then some v else none

/-- The field `sql.NullInt64{Int64: *p, Valid: p != nil && *p != 0}` once `*p` has been
read. -/
def nullInt64 (v : Int) : Option Int := if v ≠ 0 then some v else none

/-- The struct `traceInfo` that `SetTraceV3` has built when it reaches `Create` (lines
86-143). The outer `none` is the run-time panic of dereferencing a nil pointer field of
`traceInfoV3` in the struct literal. -/
def SetTraceV3.build (env : Env) (db : DB) (traceInfoV3 : entities.TraceInfoV3)
    (metadata : List entities.TraceRequestMetadata) (tags : List entities.TraceTag) :
    Option (Except Error models.TraceInfo) :=
  match GetExperiment db traceInfoV3.ExperimentID with
  | .error err => some (.error err)
  | .ok experiment =>
    match traceInfoV3.ExecutionTimeMS, traceInfoV3.RequestPreview,
      traceInfoV3.ClientRequestID, traceInfoV3.ResponsePreview with
    | some executionTimeMS, some requestPreview, some clientRequestID, some responsePreview =>
      let looped := SetTraceV3.tagLoop traceInfoV3.RequestID tags traceInfoV3.RequestID []
      match GetTraceArtifactLocationTag env experiment looped.1 with
      | .error cause =>
        some (.error (NewErrorWith .INTERNAL_ERROR
          ("failed to create trace for experiment_id " ++ env.quoted traceInfoV3.ExperimentID)
          cause))
      | .ok traceArtifactLocationTag =>
        some (.ok
          { Tags := looped.2 ++ [traceArtifactLocationTag]
            Status := traceInfoV3.Status
            RequestID := looped.1
            TimestampMS := traceInfoV3.TimestampMS
            ExperimentID := traceInfoV3.ExperimentID
            ExecutionTimeMS := nullInt64 executionTimeMS
            RequestPreview := nullString requestPreview
            ClientRequestID := nullString clientRequestID
            ResponsePreview := nullString responsePreview
            TraceRequestMetadata :=
              metadata.map (models.NewTraceRequestMetadataFromEntity looped.1) })
    | _, _, _, _ => none

/-- The method `TrackingSQLStore.SetTraceV3`; `none` is a run-time panic. -/
def SetTraceV3 (env : Env) (traceInfoV3 : entities.TraceInfoV3)
    (metadata : List entities.TraceRequestMetadata) (tags : List entities.TraceTag)
    (db : DB) : Option (Except Error entities.TraceInfoV3 × DB) :=
  match SetTraceV3.build env db traceInfoV3 metadata tags with
  | none => none
  | some (.error err) => some (.error err, db)
  | some (.ok traceInfo) =>
    match Create db traceInfo with
    | none =>
      some (.error (NewErrorWith .INTERNAL_ERROR
        ("failed to create trace for experiment_id " ++ env.quoted traceInfoV3.ExperimentID)
        "duplicate primary key"), db)
    | some (db', created) => some (.ok created.ToTraceInfoV3Entity, db')

/-- The method `TrackingSQLStore.SetTraceTag`: one upsert on `(key, request_id)`. -/
def SetTraceTag (requestID key value : String) (db : DB) : Except Error Unit × DB :=
  (.ok (), { db with
    trace_tags := upsertTag db.trace_tags { Key := key, Value := value, RequestID := requestID } })

/-- The method `TrackingSQLStore.GetTraceTag`. -/
def GetTraceTag (requestID key : String) (db : DB) : Except Error entities.TraceTag × DB :=
  match db.trace_tags.find? (fun r => r.RequestID == requestID && r.Key == key) with
  | some tag => (.ok tag.ToEntity, db)
  | none =>
    (.error (NewError .RESOURCE_DOES_NOT_EXIST
      ("No trace tag with key '" ++ key ++ "' for trace with request_id '" ++ requestID ++ "'")),
     db)

/-- The method `TrackingSQLStore.DeleteTraceTag`. -/
def DeleteTraceTag (tag : entities.TraceTag) (db : DB) : Except Error Unit × DB :=
  (.ok (), { db with
    trace_tags := db.trace_tags.filter
      (fun r => !(r.RequestID == tag.RequestID && r.Key == tag.Key)) })

/-- The method `TrackingSQLStore.GetTraceInfo`: the first row with the `request_id`,
with its tags and metadata preloaded. -/
def GetTraceInfo (reqeustID : String) (db : DB) : Except Error entities.TraceInfo × DB :=
  match db.trace_info.find? (fun r => r.RequestID == reqeustID) with
  | some row =>
    (.ok (models.TraceInfo.ToEntity
      { row with
        Tags := db.trace_tags.filter (fun t => t.RequestID == row.RequestID)
        TraceRequestMetadata :=
          db.trace_request_metadata.filter (fun m => m.RequestID == row.RequestID) }), db)
  | none =>
    (.error (NewError .RESOURCE_DOES_NOT_EXIST
      ("Trace with request_id '" ++ reqeustID ++ "' not found.")), db)

/-- The method `TrackingSQLStore.createTraceTags`: upsert of one row per tag. -/
def createTraceTags (db : DB) (requestID : String) (tags : List entities.TraceTag) : DB :=
  { db with
    trace_tags := (tags.map (models.NewTraceTagFromEntity requestID)).foldl upsertTag db.trace_tags }

/-- The method `TrackingSQLStore.createTraceMetadata`: upsert of one row per entry. -/
def createTraceMetadata (db : DB) (requestID : String)
    (metadata : List entities.TraceRequestMetadata) : DB :=
  { db with
    trace_request_metadata :=
      (metadata.map (models.NewTraceRequestMetadataFromEntity requestID)).foldl upsertMetadata
        db.trace_request_metadata }

/-- The statement `UpdateColumns` of `EndTrace` (lines 301-308): every row with the
`request_id` gets the status and the execution time. -/
def updateStatusAndExecutionTime (db : DB) (requestID status : String)
    (executionTimeMS : Int) : DB :=
  { db with
    trace_info := db.trace_info.map (fun r =>
      if r.RequestID == requestID then
        { r with Status := status, ExecutionTimeMS := some executionTimeMS }
      else r) }

/-- The method `TrackingSQLStore.EndTrace`: the lookup, the three statements of the
transaction, the commit, and the second lookup. A statement that fails ends the call
with the error built at that place of the source, and the transaction is rolled back:
the state is the one before the call. A failure of the commit is returned as it is, a
plain error without a code of its own, held here under `INTERNAL_ERROR`, the code under
which the service reports every error of this method. A failure of the second lookup
comes after the commit, so the state is the updated one. -/
def EndTrace (faults : EndTraceFaults) (reqeustID : String) (timestampMS : Int)
    (status : String) (metadata : List entities.TraceRequestMetadata)
    (tags : List entities.TraceTag) (db : DB) : Except Error entities.TraceInfo × DB :=
  match GetTraceInfo reqeustID db with
  | (.error err, _) => (.error err, db)
  | (.ok traceInfo, _) =>
    match faults.update with
    | some cause =>
      (.error (NewErrorWith .INTERNAL_ERROR
        ("failed to update trace with request_id '" ++ reqeustID ++ "'") cause), db)
    | none =>
      let db1 := updateStatusAndExecutionTime db traceInfo.RequestID status
        (wrapInt64 (timestampMS - traceInfo.TimestampMS))
      match faults.createTraceTags with
      | some cause =>
        (.error (NewErrorWith .INTERNAL_ERROR ("failed to update trace tags " ++ cause) cause),
          db)
      | none =>
        let db2 := createTraceTags db1 reqeustID tags
        match faults.createTraceMetadata with
        | some cause =>
          (.error (NewErrorWith .INTERNAL_ERROR ("failed to update trace metadata " ++ cause)
            cause), db)
        | none =>
          let db3 := createTraceMetadata db2 reqeustID metadata
          match faults.commit with
          | some cause => (.error { Code := .INTERNAL_ERROR, Message := cause }, db)
          | none =>
            match faults.refetch with
            | some cause =>
              (.error (NewError .INTERNAL_ERROR ("error getting trace info: " ++ cause)), db3)
            | none => GetTraceInfo reqeustID db3

/-- The subquery of `DeleteTraces` (lines 401-409):
`SELECT request_id FROM trace_info ORDER BY timestamp_ms ASC LIMIT maxTraces`.
Rows with equal timestamps keep their table order; a negative limit is no limit. -/
def oldestRequestIDs (db : DB) (maxTraces : Int) : List String :=
  let ordered := db.trace_info.insertionSort (fun a b => a.TimestampMS ≤ b.TimestampMS)
  let limited := if maxTraces < 0 then ordered else ordered.take maxTraces.toNat
  limited.map (fun r => r.RequestID)

/-- The `WHERE` clause that `DeleteTraces` assembles (lines 384-411). -/
def DeleteTraces.selected (db : DB) (experimentID : String) (maxTimestampMillis : Int)
    (maxTraces : Int) (requestIDs : List String) (r : models.TraceInfo) : Bool :=
  r.ExperimentID == experimentID
  && (if maxTimestampMillis ≠ 0 then decide (r.TimestampMS ≤ maxTimestampMillis) else true)
  && (if requestIDs.length > 0 then requestIDs.contains r.RequestID else true)
  && (if maxTraces ≠ 0 then (oldestRequestIDs db maxTraces).contains r.RequestID else true)

/-- Modelled from the spec: the foreign keys of the child tables are declared outside
the embedded sources; by the spec, deleting a trace cascades to its tags and
metadata. -/
def cascadeDelete (db : DB) (deleted : List String) : DB :=
  { db with
    trace_tags := db.trace_tags.filter (fun t => !deleted.contains t.RequestID)
    trace_request_metadata :=
      db.trace_request_metadata.filter (fun m => !deleted.contains m.RequestID) }

/-- The method `TrackingSQLStore.DeleteTraces`: one `DELETE ... RETURNING request_id`;
the result is `int32(len(traces))`. -/
def DeleteTraces (experimentID : String) (maxTimestampMillis : Int) (maxTraces : Int)
    (requestIDs : List String) (db : DB) : Except Error Int × DB :=
  let selected := DeleteTraces.selected db experimentID maxTimestampMillis maxTraces requestIDs
  let traces := db.trace_info.filter selected
  let remaining := db.trace_info.filter (fun r => !selected r)
  (.ok (wrapInt32 traces.length),
    cascadeDelete { db with trace_info := remaining } (traces.map (fun r => r.RequestID)))

end TrackingSQLStore

/-! ## Wire messages (`pkg/protos`), as far as the trace service reads them -/

namespace protos

/-- The enum `protos.TraceStatus`. -/
inductive TraceStatus where
  | TRACE_STATUS_UNSPECIFIED
  | OK
  | ERROR
  | IN_PROGRESS
  deriving DecidableEq, Repr

/-- Modelled from the spec: the generated method `TraceStatus.String` is outside the
embedded sources; it yields the name of the member, the same strings as the
`TraceInfoStatus` constants of `models`. -/
def TraceStatus.String : TraceStatus → String
  | .TRACE_STATUS_UNSPECIFIED => models.TraceInfoStatusUnspecified
  | .OK => models.TraceInfoStatusOk
  | .ERROR => models.TraceInfoStatusError
  | .IN_PROGRESS => models.TraceInfoStatusInProgress

/-- Modelled from the spec: the generated table `protos.TraceStatus_value` is outside
the embedded sources; it maps the name of each member to its number. This is the lookup
`protos.TraceStatus(protos.TraceStatus_value[s])`: a name that is not in the map gives
the zero member. -/
def TraceStatus_value (s : String) : TraceStatus :=
  if s = models.TraceInfoStatusOk then .OK
  else if s = models.TraceInfoStatusError then .ERROR
  else if s = models.TraceInfoStatusInProgress then .IN_PROGRESS
  else .TRACE_STATUS_UNSPECIFIED

/-- The message `protos.TraceTag`. -/
structure TraceTag where
  Key : Option String
  Value : Option String
  deriving DecidableEq, Repr

/-- The message `protos.TraceRequestMetadata`. -/
structure TraceRequestMetadata where
  Key : Option String
  Value : Option String
  deriving DecidableEq, Repr

/-- The message `protos.TraceInfo`. -/
structure TraceInfo where
  RequestId : Option String
  ExperimentId : Option String
  TimestampMs : Option Int
  ExecutionTimeMs : Option Int
  Status : Option TraceStatus
  RequestMetadata : List TraceRequestMetadata
  Tags : List TraceTag
  deriving DecidableEq, Repr

/-- The message `protos.StartTrace`. -/
structure StartTrace where
  ExperimentId : Option String := none
  TimestampMs : Option Int := none
  RequestMetadata : List TraceRequestMetadata := []
  Tags : List TraceTag := []
  deriving DecidableEq, Repr

/-- The message `protos.EndTrace`. -/
structure EndTrace where
  RequestId : Option String := none
  TimestampMs : Option Int := none
  Status : Option TraceStatus := none
  RequestMetadata : List TraceRequestMetadata := []
  Tags : List TraceTag := []
  deriving DecidableEq, Repr

/-- The message `protos.GetTraceInfo`. -/
structure GetTraceInfo where
  RequestId : Option String := none
  deriving DecidableEq, Repr

/-- The message `protos.DeleteTraces`. `RequestIds` is `none` for a nil slice. -/
structure DeleteTraces where
  ExperimentId : Option String := none
  MaxTimestampMillis : Option Int := none
  MaxTraces : Option Int := none
  RequestIds : Option (List String) := none
  deriving DecidableEq, Repr

/-- The message `protos.DeleteTraces_Response`. -/
structure DeleteTraces_Response where
  TracesDeleted : Option Int
  deriving DecidableEq, Repr

/-- The message `protos.StartTrace_Response`. -/
structure StartTrace_Response where
  TraceInfo : TraceInfo
  deriving DecidableEq, Repr

/-- The message `protos.EndTrace_Response`. -/
structure EndTrace_Response where
  TraceInfo : TraceInfo
  deriving DecidableEq, Repr

/-- The message `protos.GetTraceInfo_Response`. -/
structure GetTraceInfo_Response where
  TraceInfo : TraceInfo
  deriving DecidableEq, Repr

/-- The message `protos.SetTraceTag`. -/
structure SetTraceTag where
  RequestId : Option String := none
  Key : Option String := none
  Value : Option String := none
  deriving DecidableEq, Repr

/-- The message `protos.SetTraceTag_Response`. -/
structure SetTraceTag_Response where
  deriving DecidableEq, Repr

/-- The message `protos.DeleteTraceTag`, with the fields that the service reads. -/
structure DeleteTraceTag where
  TraceId : Option String := none
  Key : Option String := none
  deriving DecidableEq, Repr

/-- The message `protos.DeleteTraceTag_Response`. -/
structure DeleteTraceTag_Response where
  deriving DecidableEq, Repr

/-- The enum `protos.TraceInfoV3_State`. -/
inductive TraceInfoV3_State where
  | STATE_UNSPECIFIED
  | OK
  | ERROR
  | IN_PROGRESS
  deriving DecidableEq, Repr

/-- Modelled from the spec: the generated method `TraceInfoV3_State.String` is outside
the embedded sources; it yields the name of the member, and the spec names the three
states `OK`, `ERROR` and `IN_PROGRESS`. -/
def TraceInfoV3_State.String : TraceInfoV3_State → String
  | .STATE_UNSPECIFIED => "STATE_UNSPECIFIED"
  | .OK => "OK"
  | .ERROR => "ERROR"
  | .IN_PROGRESS => "IN_PROGRESS"

/-- The enum `protos.TraceLocation_TraceLocationType`, the member that the code uses. -/
inductive TraceLocationType where
  | MLFLOW_EXPERIMENT
  deriving DecidableEq, Repr

/-- The message `protos.TraceLocation` with the identifier
`TraceLocation_MlflowExperiment`; `LocationType` is the field `Type`. -/
structure TraceLocation where
  LocationType : Option TraceLocationType
  MlflowExperimentId : Option String
  deriving DecidableEq, Repr

/-- The message `protos.TraceInfoV3`. A Go map is a list of key-value pairs with one
pair per key (`mapSet`). `RequestTime` holds the instant given to `timestamppb.New`, in
milliseconds, and `ExecutionDuration` the `time.Duration` given to `durationpb.New`, in
nanoseconds. -/
structure TraceInfoV3 where
  Tags : List (String × String)
  TraceId : Option String
  TraceLocation : Option TraceLocation
  RequestTime : Option Int
  TraceMetadata : List (String × String)
  ExecutionDuration : Option Int
  ClientRequestId : Option String
  RequestPreview : Option String
  ResponsePreview : Option String
  State : Option TraceInfoV3_State
  deriving DecidableEq, Repr

end protos

/-- The assignment `m[key] = value` on a Go map. -/
def mapSet (m : List (String × String)) (key value : String) : List (String × String) :=
  if m.any (fun p => p.1 == key) then
    m.map (fun p => if p.1 == key then (key, value) else p)
  else m ++ [(key, value)]

namespace entities

/-- The method `entities.TraceTag.ToProto`. -/
def TraceTag.ToProto (tt : TraceTag) : protos.TraceTag :=
  { Key := some tt.Key, Value := some tt.Value }

/-- The method `entities.TraceRequestMetadata.ToProto`. -/
def TraceRequestMetadata.ToProto (trm : TraceRequestMetadata) : protos.TraceRequestMetadata :=
  { Key := some trm.Key, Value := some trm.Value }

/-- The function `entities.TagsFromStartTraceProtoInput`. -/
def TagsFromStartTraceProtoInput (protoTags : List protos.TraceTag) : List TraceTag :=
  protoTags.map (fun tag => { Key := tag.Key.getD "", Value := tag.Value.getD "" })

/-- The function `entities.TraceRequestMetadataFromStartTraceProtoInput`. -/
def TraceRequestMetadataFromStartTraceProtoInput
    (protoMetadata : List protos.TraceRequestMetadata) : List TraceRequestMetadata :=
  protoMetadata.map (fun m => { Key := m.Key.getD "", Value := m.Value.getD "" })

/-- The method `entities.TraceInfo.ToProto` (the legacy wire shape). -/
def TraceInfo.ToProto (ti : TraceInfo) : protos.TraceInfo :=
  { RequestId := some ti.RequestID
    ExperimentId := some ti.ExperimentID
    TimestampMs := some ti.TimestampMS
    ExecutionTimeMs := ti.ExecutionTimeMS
    Status := some (protos.TraceStatus_value ti.Status)
    RequestMetadata := ti.TraceRequestMetadata.map TraceRequestMetadata.ToProto
    Tags := ti.Tags.map TraceTag.ToProto }

/-- The `switch` on `ti.Status` that closes `TraceInfoV3.ToProto` (lines 97-106). -/
def TraceInfoV3.state (status : String) : protos.TraceInfoV3_State :=
  if status = protos.TraceInfoV3_State.OK.String then .OK
  else if status = protos.TraceInfoV3_State.ERROR.String then .ERROR
  else if status = protos.TraceInfoV3_State.IN_PROGRESS.String then .IN_PROGRESS
  else .STATE_UNSPECIFIED

/-- The method `entities.TraceInfoV3.ToProto` (the v3 wire shape). The product
`time.Duration(*ti.ExecutionTimeMS) * time.Millisecond` is an `int64` product. -/
def TraceInfoV3.ToProto (ti : TraceInfoV3) : protos.TraceInfoV3 :=
  { Tags := ti.Tags.foldl (fun m tag => mapSet m tag.Key tag.Value) []
    TraceId := some ti.RequestID
    TraceLocation := some { LocationType := some .MLFLOW_EXPERIMENT
                            MlflowExperimentId := some ti.ExperimentID }
    RequestTime := some ti.TimestampMS
    TraceMetadata :=
      ti.TraceRequestMetadata.foldl (fun m metadata => mapSet m metadata.Key metadata.Value) []
    ExecutionDuration := ti.ExecutionTimeMS.map (fun ms => wrapInt64 (ms * 1000000))
    ClientRequestId := ti.ClientRequestID
    RequestPreview := ti.RequestPreview
    ResponsePreview := ti.ResponsePreview
    State := some (TraceInfoV3.state ti.Status) }

end entities

/-! ## The service (`pkg/tracking/service/trace.go`) -/

/-- The methods of the interface `ts.Store` that the trace service calls, over a store
state `σ`. -/
structure Store (σ : Type) where
  SetTrace : String → Int → List entities.TraceRequestMetadata → List entities.TraceTag →
    σ → Except Error entities.TraceInfo × σ
  EndTrace : String → Int → String → List entities.TraceRequestMetadata →
    List entities.TraceTag → σ → Except Error entities.TraceInfo × σ
  GetTraceInfo : String → σ → Except Error entities.TraceInfo × σ
  DeleteTraces : String → Int → Int → List String → σ → Except Error Int × σ
  SetTraceTag : String → String → String → σ → Except Error Unit × σ
  GetTraceTag : String → String → σ → Except Error (Option entities.TraceTag) × σ
  DeleteTraceTag : entities.TraceTag → σ → Except Error Unit × σ

/-- The store `TrackingSQLStore` behind the interface; `uuid` is what
`utils.NewUUID()` yields in a call of `SetTrace`. In the interface `GetTraceTag`
returns a pointer, which `TrackingSQLStore.GetTraceTag` never leaves nil on success. -/
def sqlStore (env : Env) (uuid : String) : Store DB :=
  { SetTrace := TrackingSQLStore.SetTrace env uuid
    EndTrace := TrackingSQLStore.EndTrace env.endTraceFaults
    GetTraceInfo := TrackingSQLStore.GetTraceInfo
    DeleteTraces := TrackingSQLStore.DeleteTraces
    SetTraceTag := TrackingSQLStore.SetTraceTag
    GetTraceTag := fun requestID key db =>
      match TrackingSQLStore.GetTraceTag requestID key db with
      | (.ok tag, db') => (.ok (some tag), db')
      | (.error err, db') => (.error err, db')
    DeleteTraceTag := TrackingSQLStore.DeleteTraceTag }

namespace TrackingService

variable {σ : Type}

/-- The method `TrackingService.StartTrace`. -/
def StartTrace (env : Env) (store : Store σ) (input : protos.StartTrace) (s : σ) :
    Except Error protos.StartTrace_Response × σ :=
  match store.SetTrace (input.ExperimentId.getD "") (input.TimestampMs.getD 0)
      (entities.TraceRequestMetadataFromStartTraceProtoInput input.RequestMetadata)
      (entities.TagsFromStartTraceProtoInput input.Tags) s with
  | (.error err, s') =>
    (.error (NewError .INTERNAL_ERROR ("error starting trace: " ++ env.errorText err)), s')
  | (.ok traceInfo, s') => (.ok { TraceInfo := traceInfo.ToProto }, s')

/-- The method `TrackingService.EndTrace`. -/
def EndTrace (env : Env) (store : Store σ) (input : protos.EndTrace) (s : σ) :
    Except Error protos.EndTrace_Response × σ :=
  match store.EndTrace (input.RequestId.getD "") (input.TimestampMs.getD 0)
      (input.Status.getD .TRACE_STATUS_UNSPECIFIED).String
      (entities.TraceRequestMetadataFromStartTraceProtoInput input.RequestMetadata)
      (entities.TagsFromStartTraceProtoInput input.Tags) s with
  | (.error err, s') =>
    (.error (NewError .INTERNAL_ERROR ("error ending trace: " ++ env.errorText err)), s')
  | (.ok traceInfo, s') => (.ok { TraceInfo := traceInfo.ToProto }, s')

/-- The method `TrackingService.GetTraceInfo`. -/
def GetTraceInfo (store : Store σ) (input : protos.GetTraceInfo) (s : σ) :
    Except Error protos.GetTraceInfo_Response × σ :=
  match store.GetTraceInfo (input.RequestId.getD "") s with
  | (.error err, s') => (.error err, s')
  | (.ok traceInfo, s') => (.ok { TraceInfo := traceInfo.ToProto }, s')

/-- The method `TrackingService.DeleteTraces`. -/
def DeleteTraces (store : Store σ) (input : protos.DeleteTraces) (s : σ) :
    Except Error protos.DeleteTraces_Response × σ :=
  if input.MaxTimestampMillis.isNone && (input.RequestIds.getD []).length == 0 then
    (.error (NewError .INVALID_PARAMETER_VALUE
      "Either `max_timestamp_millis` or `trace_ids` must be specified."), s)
  else if input.MaxTimestampMillis.isSome && input.RequestIds.isSome then
    (.error (NewError .INVALID_PARAMETER_VALUE
      "Only one of `max_timestamp_millis` and `trace_ids` can be specified."), s)
  else if input.RequestIds.isSome && input.MaxTraces.isSome then
    (.error (NewError .INVALID_PARAMETER_VALUE
      "`max_traces` can't be specified if `trace_ids` is specified."), s)
  else if input.MaxTraces.isSome && decide (input.MaxTraces.getD 0 ≤ 0) then
    (.error (NewError .INVALID_PARAMETER_VALUE
      ("`max_traces` must be a positive integer, received "
        ++ toString (input.MaxTraces.getD 0) ++ ".")), s)
  else
    match store.DeleteTraces (input.ExperimentId.getD "") (input.MaxTimestampMillis.getD 0)
        (input.MaxTraces.getD 0) (input.RequestIds.getD []) s with
    | (.error err, s') => (.error err, s')
    | (.ok result, s') => (.ok { TracesDeleted := some result }, s')

/-- The method `TrackingService.SetTraceTag`. -/
def SetTraceTag (env : Env) (store : Store σ) (input : protos.SetTraceTag) (s : σ) :
    Except Error protos.SetTraceTag_Response × σ :=
  match store.SetTraceTag (input.RequestId.getD "") (input.Key.getD "")
      (input.Value.getD "") s with
  | (.error err, s') =>
    (.error (NewErrorWith .INTERNAL_ERROR "failed to create trace_tag" (env.errorText err)), s')
  | (.ok _, s') => (.ok {}, s')

/-- The method `TrackingService.DeleteTraceTag`. -/
def DeleteTraceTag (store : Store σ) (input : protos.DeleteTraceTag) (s : σ) :
    Except Error protos.DeleteTraceTag_Response × σ :=
  match store.GetTraceTag (input.TraceId.getD "") (input.Key.getD "") s with
  | (.error err, s1) => (.error err, s1)
  | (.ok none, s1) =>
    (.error (NewError .RESOURCE_DOES_NOT_EXIST
      ("No trace tag with key '" ++ input.Key.getD "" ++ "' for trace with trace_id '"
        ++ input.TraceId.getD "" ++ "'")), s1)
  | (.ok (some tag), s1) =>
    match store.DeleteTraceTag tag s1 with
    | (.error err, s2) => (.error err, s2)
    | (.ok _, s2) => (.ok {}, s2)

end TrackingService

end Mlflow

namespace Mlflow

/-! ## Concrete values for the closed statements -/

/-- An environment for closed statements. -/
def exampleEnv : Env :=
  { artifactLocationKey := "mlflow.artifactLocation"
    artifactLocation := fun experiment requestID =>
      some (experiment.ArtifactLocation ++ "/traces/" ++ requestID ++ "/artifacts")
    errorText := fun err => err.Message
    quoted := fun s => s.quote }

/-- A store state with two older traces of experiment `2` and five traces of
experiment `1` with ascending timestamps. -/
def sevenTraces : DB :=
  { experiments := [{ ExperimentID := "1", ArtifactLocation := "file:///mlruns/1" },
                    { ExperimentID := "2", ArtifactLocation := "file:///mlruns/2" }]
    trace_info :=
      [{ RequestID := "x1", ExperimentID := "2", TimestampMS := 1, Status := "OK" },
       { RequestID := "x2", ExperimentID := "2", TimestampMS := 2, Status := "OK" },
       { RequestID := "a1", ExperimentID := "1", TimestampMS := 11, Status := "OK" },
       { RequestID := "a2", ExperimentID := "1", TimestampMS := 12, Status := "OK" },
       { RequestID := "a3", ExperimentID := "1", TimestampMS := 13, Status := "OK" },
       { RequestID := "a4", ExperimentID := "1", TimestampMS := 14, Status := "OK" },
       { RequestID := "a5", ExperimentID := "1", TimestampMS := 15, Status := "OK" }] }

/-- A store state with one trace of experiment `1`, created at time 5. -/
def oneTrace : DB :=
  { experiments := [{ ExperimentID := "1", ArtifactLocation := "file:///mlruns/1" }]
    trace_info :=
      [{ RequestID := "a", ExperimentID := "1", TimestampMS := 5,
         Status := models.TraceInfoStatusInProgress }]
    trace_tags := [{ Key := "mlflow.artifactLocation",
                     Value := "file:///mlruns/1/traces/a/artifacts", RequestID := "a" }] }

/-- A store state with experiment `1` and no trace. -/
def noTrace : DB :=
  { experiments := [{ ExperimentID := "1", ArtifactLocation := "file:///mlruns/1" }] }

/-- The primary key of `trace_tags`: no two rows share `(request_id, key)`. -/
def TagPrimaryKey (db : DB) : Prop :=
  (db.trace_tags.map (fun r => (r.RequestID, r.Key))).Nodup

/-- The primary key of `trace_request_metadata`: no two rows share
`(request_id, key)`. -/
def MetadataPrimaryKey (db : DB) : Prop :=
  (db.trace_request_metadata.map (fun r => (r.RequestID, r.Key))).Nodup

/-- The shape of the tags and metadata that a start returns and of the rows it writes:
`location` is the synthesized location. -/
def StartShape (artifactLocationKey location : String) (tags : List entities.TraceTag)
    (metadata : List entities.TraceRequestMetadata) (db db' : DB) (requestID : String)
    (returnedTags : List entities.TraceTag)
    (returnedMetadata : List entities.TraceRequestMetadata) : Prop :=
  returnedTags = (tags.filter (fun t => decide (t.Key ≠ mockRequestIDTagKey))).map
      (fun t => { Key := t.Key, Value := t.Value, RequestID := requestID })
    ++ [{ Key := artifactLocationKey, Value := location, RequestID := requestID }] ∧
  returnedMetadata
    = metadata.map (fun m => { Key := m.Key, Value := m.Value, RequestID := requestID }) ∧
  db'.trace_tags = List.foldl insertTagIfAbsent db.trace_tags
    (List.map (fun t : entities.TraceTag =>
        ({ Key := t.Key, Value := t.Value, RequestID := requestID } : models.TraceTag))
      (tags.filter (fun t => decide (t.Key ≠ mockRequestIDTagKey)))
    ++ [({ Key := artifactLocationKey, Value := location, RequestID := requestID } :
        models.TraceTag)]) ∧
  db'.trace_request_metadata = List.foldl insertMetadataIfAbsent db.trace_request_metadata
    (List.map (fun m : entities.TraceRequestMetadata =>
        ({ Key := m.Key, Value := m.Value, RequestID := requestID } :
          models.TraceRequestMetadata)) metadata) ∧
  ∃ row, db'.trace_info = db.trace_info ++ [row] ∧ row.RequestID = requestID

/-- The outcome of a start whose caller tags `tags` hold a tag under the reserved key:
`requestID` is the `request_id` of the resulting trace, `returned` its tags, `db` and
`db'` the store state before and after.
* the `request_id` is the value of the last tag under the reserved key;
* no returned tag and no tag row written by the start is under the reserved key, and
  each written row is a row of the resulting trace;
* every other caller tag is among the returned tags, and the trace has a tag row under
  its key;
* every other caller tag that is the first caller tag with its key is stored with its
  value, when the store held no row under the `request_id` and that key before. -/
def OverrideOutcome (tags : List entities.TraceTag) (db db' : DB) (requestID : String)
    (returned : List entities.TraceTag) : Prop :=
  (∃ pre t post, tags = pre ++ t :: post ∧ t.Key = mockRequestIDTagKey ∧
    (∀ u ∈ post, u.Key ≠ mockRequestIDTagKey) ∧ requestID = t.Value) ∧
  (∀ t ∈ returned, t.Key ≠ mockRequestIDTagKey) ∧
  (∀ r ∈ db'.trace_tags, r ∉ db.trace_tags →
    r.Key ≠ mockRequestIDTagKey ∧ r.RequestID = requestID) ∧
  (∀ t ∈ tags, t.Key ≠ mockRequestIDTagKey →
    ({ Key := t.Key, Value := t.Value, RequestID := requestID } : entities.TraceTag)
      ∈ returned ∧
    ∃ r ∈ db'.trace_tags, r.RequestID = requestID ∧ r.Key = t.Key) ∧
  (∀ pre t post, tags = pre ++ t :: post → t.Key ≠ mockRequestIDTagKey →
    (∀ u ∈ pre, u.Key ≠ t.Key) →
    (∀ r ∈ db.trace_tags, ¬ (r.RequestID = requestID ∧ r.Key = t.Key)) →
    ({ Key := t.Key, Value := t.Value, RequestID := requestID } : models.TraceTag)
      ∈ db'.trace_tags)

/-- The outcome of a start with caller lists that may repeat a key, for the returned
trace (`returnedTags`, `returnedMetadata`) and the store (`db` before, `db'` after).
* The returned tags are the caller's tags other than the override tag, in order,
  followed by the synthesized tag; the returned metadata are the caller's entries.
* The store keeps its primary keys, so the tag rows of the trace have pairwise distinct
  keys, and so have its metadata rows.
* A caller tag or entry that is the first with its key is stored with its value, when
  the store held no row under the `request_id` and that key before; under the primary
  key every row of the trace under that key then holds that value. -/
def RepeatedKeysOutcome (artifactLocationKey : String) (tags : List entities.TraceTag)
    (metadata : List entities.TraceRequestMetadata) (db db' : DB) (requestID : String)
    (returnedTags : List entities.TraceTag)
    (returnedMetadata : List entities.TraceRequestMetadata) : Prop :=
  (∃ location, returnedTags
    = (tags.filter (fun t => decide (t.Key ≠ mockRequestIDTagKey))).map
        (fun t => { Key := t.Key, Value := t.Value, RequestID := requestID })
      ++ [{ Key := artifactLocationKey, Value := location, RequestID := requestID }]) ∧
  returnedMetadata
    = metadata.map (fun m => { Key := m.Key, Value := m.Value, RequestID := requestID }) ∧
  (TagPrimaryKey db → TagPrimaryKey db' ∧
    ((db'.trace_tags.filter (fun r => r.RequestID == requestID)).map
      (fun r => r.Key)).Nodup) ∧
  (MetadataPrimaryKey db → MetadataPrimaryKey db' ∧
    ((db'.trace_request_metadata.filter (fun r => r.RequestID == requestID)).map
      (fun r => r.Key)).Nodup) ∧
  (∀ pre t post, tags = pre ++ t :: post → t.Key ≠ mockRequestIDTagKey →
    (∀ u ∈ pre, u.Key ≠ t.Key) →
    (∀ r ∈ db.trace_tags, ¬ (r.RequestID = requestID ∧ r.Key = t.Key)) →
    ({ Key := t.Key, Value := t.Value, RequestID := requestID } : models.TraceTag)
        ∈ db'.trace_tags ∧
      (TagPrimaryKey db → ∀ r ∈ db'.trace_tags, r.RequestID = requestID → r.Key = t.Key →
        r.Value = t.Value)) ∧
  (∀ pre m post, metadata = pre ++ m :: post → (∀ u ∈ pre, u.Key ≠ m.Key) →
    (∀ r ∈ db.trace_request_metadata, ¬ (r.RequestID = requestID ∧ r.Key = m.Key)) →
    ({ Key := m.Key, Value := m.Value, RequestID := requestID } : models.TraceRequestMetadata)
        ∈ db'.trace_request_metadata ∧
      (MetadataPrimaryKey db → ∀ r ∈ db'.trace_request_metadata, r.RequestID = requestID →
        r.Key = m.Key → r.Value = m.Value))

/-- The rows of a started trace and its `request_id`: the trace row is stored under
`requestID`, every returned tag and metadata entry carries it, and so does every tag
row and metadata row that the start wrote. -/
def RowsCarryRequestID (db db' : DB) (requestID : String)
    (returnedTags : List entities.TraceTag)
    (returnedMetadata : List entities.TraceRequestMetadata) : Prop :=
  (∃ row, db'.trace_info = db.trace_info ++ [row] ∧ row.RequestID = requestID) ∧
  (∀ t ∈ returnedTags, t.RequestID = requestID) ∧
  (∀ m ∈ returnedMetadata, m.RequestID = requestID) ∧
  (∀ r ∈ db'.trace_tags, r ∉ db.trace_tags → r.RequestID = requestID) ∧
  (∀ r ∈ db'.trace_request_metadata, r ∉ db.trace_request_metadata →
    r.RequestID = requestID)

/-! ## Sequences of operations -/

/-- The operations on the trace tables: start, end, set tag, delete tag, purge, with
the arguments of the store methods. -/
inductive Op where
  | start (uuid experimentID : String) (timestampMS : Int)
      (metadata : List entities.TraceRequestMetadata) (tags : List entities.TraceTag)
  | endTrace (requestID : String) (timestampMS : Int) (status : String)
      (metadata : List entities.TraceRequestMetadata) (tags : List entities.TraceTag)
  | setTag (requestID key value : String)
  | deleteTag (traceID key : String)
  | purge (experimentID : String) (maxTimestampMillis maxTraces : Int)
      (requestIDs : List String)

/-- The store state after an operation. Delete tag is `GetTraceTag` followed, when the
tag is found, by `DeleteTraceTag`, as `TrackingService.DeleteTraceTag` calls them. End
is an end call whose statements the engine executes; one whose transaction is rolled
back leaves the state as it was. -/
def Op.run (env : Env) : Op → DB → DB
  | .start uuid experimentID timestampMS metadata tags, db =>
    (TrackingSQLStore.SetTrace env uuid experimentID timestampMS metadata tags db).2
  | .endTrace requestID timestampMS status metadata tags, db =>
    (TrackingSQLStore.EndTrace {} requestID timestampMS status metadata tags db).2
  | .setTag requestID key value, db => (TrackingSQLStore.SetTraceTag requestID key value db).2
  | .deleteTag traceID key, db =>
    match TrackingSQLStore.GetTraceTag traceID key db with
    | (.ok tag, db1) => (TrackingSQLStore.DeleteTraceTag tag db1).2
    | (.error _, db1) => db1
  | .purge experimentID maxTimestampMillis maxTraces requestIDs, db =>
    (TrackingSQLStore.DeleteTraces experimentID maxTimestampMillis maxTraces requestIDs db).2

/-- The status column of the trace with the `request_id`, if the trace exists. -/
def statusOf (db : DB) (requestID : String) : Option String :=
  (db.trace_info.find? (fun r => r.RequestID == requestID)).map (fun r => r.Status)

/-- The primary key of `trace_info`: no two rows share a `request_id`. -/
def PrimaryKey (db : DB) : Prop := (db.trace_info.map (fun r => r.RequestID)).Nodup

/-- A v3 trace to start: experiment `1`, `request_id` `tr-0`, every pointer field set. -/
def exampleTraceInfoV3 : entities.TraceInfoV3 :=
  { Status := "IN_PROGRESS", RequestID := "tr-0", ClientRequestID := some "",
    ExperimentID := "1", RequestPreview := some "", ResponsePreview := some "",
    TimestampMS := 5, ExecutionTimeMS := some 0, Tags := [], TraceRequestMetadata := [] }

/-! ## Purge: validation in the service -/

/-- C1: a purge request that supplies neither a max-timestamp cutoff nor an id list
(a nil or an empty list), or that supplies both, is answered by
`TrackingService.DeleteTraces` with an `INVALID_PARAMETER_VALUE` error and the store
state it was given, whatever the store behind the interface does, so
`Store.DeleteTraces` is not invoked and nothing is deleted; and a request that the
service answers with a result (for any store) supplies exactly one of the two. -/
theorem deleteTraces_requires_exactly_one_selector {σ : Type} (store : Store σ)
    (input : protos.DeleteTraces) (s : σ) :
    ((input.MaxTimestampMillis = none ∧ input.RequestIds.getD [] = []) ∨
        (input.MaxTimestampMillis ≠ none ∧ input.RequestIds ≠ none) →
      ∃ err, TrackingService.DeleteTraces store input s = (.error err, s) ∧
        err.Code = .INVALID_PARAMETER_VALUE) ∧
    (∀ res s', TrackingService.DeleteTraces store input s = (.ok res, s') →
      (input.MaxTimestampMillis ≠ none ∧ input.RequestIds = none) ∨
        (input.MaxTimestampMillis = none ∧ ∃ ids, input.RequestIds = some ids ∧ ids ≠ [])) := by
  obtain ⟨e, ts, mt, ids⟩ := input
  constructor
  · rintro (⟨h1, h2⟩ | ⟨h1, h2⟩)
    · simp only at h1 h2
      subst h1
      simp [TrackingService.DeleteTraces, NewError, h2]
    · simp only at h1 h2
      cases ts with
      | none => exact absurd rfl h1
      | some t =>
        cases ids with
        | none => exact absurd rfl h2
        | some l => simp [TrackingService.DeleteTraces, NewError]
  · intro res s' h
    cases ts <;> cases ids <;> simp [TrackingService.DeleteTraces, NewError] at h ⊢
    intro hl
    simp [hl] at h

/-- Witness for C1: a request with a cutoff and an id list is rejected and the state
is the one given. -/
theorem deleteTraces_requires_exactly_one_selector_witness :
    ∃ err, TrackingService.DeleteTraces (sqlStore exampleEnv "u")
        { ExperimentId := some "1", MaxTimestampMillis := some 10, RequestIds := some ["a"] }
        { trace_info := [{ RequestID := "a", ExperimentID := "1", TimestampMS := 5,
                           Status := "OK" }] }
      = (.error err,
        { trace_info := [{ RequestID := "a", ExperimentID := "1", TimestampMS := 5,
                           Status := "OK" }] }) ∧
      err.Code = .INVALID_PARAMETER_VALUE :=
  (deleteTraces_requires_exactly_one_selector (sqlStore exampleEnv "u")
    { ExperimentId := some "1", MaxTimestampMillis := some 10, RequestIds := some ["a"] }
    { trace_info := [{ RequestID := "a", ExperimentID := "1", TimestampMS := 5,
                       Status := "OK" }] }).1
    (Or.inr ⟨by simp, by simp⟩)

/-- C2 (as amended): a purge request whose `max_traces` is supplied and is zero or
negative is answered with an `INVALID_PARAMETER_VALUE` error and the store state it was
given; when the request supplies a cutoff and no id list, so that the three earlier
checks pass, the message contains the decimal text of the supplied `max_traces`. -/
theorem deleteTraces_rejects_non_positive_max_traces {σ : Type} (store : Store σ)
    (input : protos.DeleteTraces) (s : σ) (n : Int)
    (hn : input.MaxTraces = some n) (hle : n ≤ 0) :
    ∃ err, TrackingService.DeleteTraces store input s = (.error err, s) ∧
      err.Code = .INVALID_PARAMETER_VALUE ∧
      (input.MaxTimestampMillis ≠ none → input.RequestIds = none →
        (toString n).data <:+: err.Message.data) := by
  obtain ⟨e, ts, mt, ids⟩ := input
  simp only at hn
  subst hn
  have hinfix : ∀ a b c : String, b.data <:+: (a ++ b ++ c).data :=
    fun a b c => ⟨a.data, c.data, by simp [String.data_append]⟩
  cases ts with
  | none =>
    cases ids <;> simp [TrackingService.DeleteTraces, NewError, hle]
    split <;> simp
  | some t =>
    cases ids with
    | none =>
      refine ⟨NewError .INVALID_PARAMETER_VALUE
        ("`max_traces` must be a positive integer, received " ++ toString n ++ "."),
        ?_, rfl, fun _ _ => hinfix _ _ _⟩
      simp [TrackingService.DeleteTraces, hle]
    | some l => simp [TrackingService.DeleteTraces, NewError, hle]

/-- Witness for C2: cutoff 10, `max_traces = -3`. -/
theorem deleteTraces_rejects_non_positive_max_traces_witness :
    ∃ err, TrackingService.DeleteTraces (sqlStore exampleEnv "u")
        { ExperimentId := some "1", MaxTimestampMillis := some 10, MaxTraces := some (-3) } {}
      = (.error err, {}) ∧
      err.Code = .INVALID_PARAMETER_VALUE ∧
      (((some 10 : Option Int) ≠ none) → ((none : Option (List String)) = none) →
        (toString (-3 : Int)).data <:+: err.Message.data) :=
  deleteTraces_rejects_non_positive_max_traces (sqlStore exampleEnv "u")
    { ExperimentId := some "1", MaxTimestampMillis := some 10, MaxTraces := some (-3) } {}
    (-3) rfl (by decide)

/-- Counterexample to C2 as stated: with an id list and `max_traces = -1` the request
is rejected by the earlier check on the id list, and the message of that error does not
contain the text `-1`. -/
theorem deleteTraces_max_traces_message_counterexample :
    TrackingService.DeleteTraces (sqlStore exampleEnv "u")
        { ExperimentId := some "1", RequestIds := some ["a"], MaxTraces := some (-1) } {}
      = (.error (NewError .INVALID_PARAMETER_VALUE
          "`max_traces` can't be specified if `trace_ids` is specified."), {}) ∧
      ¬ ((toString (-1 : Int)).data <:+:
          "`max_traces` can't be specified if `trace_ids` is specified.".data) := by
  constructor
  · rfl
  · intro h
    have hmem : '-' ∈ "`max_traces` can't be specified if `trace_ids` is specified.".data :=
      h.subset (by decide)
    revert hmem
    decide

/-- C5: a purge request that supplies both an id list and a max-count is answered with
an `INVALID_PARAMETER_VALUE` error and the store state it was given; and a request with
a max-count that the service answers with a result (for any store) has a cutoff, no id
list, and a strictly positive max-count. -/
theorem deleteTraces_max_traces_only_with_cutoff {σ : Type} (store : Store σ)
    (input : protos.DeleteTraces) (s : σ) :
    (input.RequestIds ≠ none ∧ input.MaxTraces ≠ none →
      ∃ err, TrackingService.DeleteTraces store input s = (.error err, s) ∧
        err.Code = .INVALID_PARAMETER_VALUE) ∧
    (∀ n res s', input.MaxTraces = some n →
      TrackingService.DeleteTraces store input s = (.ok res, s') →
      input.MaxTimestampMillis ≠ none ∧ input.RequestIds = none ∧ 0 < n) := by
  obtain ⟨e, ts, mt, ids⟩ := input
  constructor
  · rintro ⟨h1, h2⟩
    simp only at h1 h2
    cases ids with
    | none => exact absurd rfl h1
    | some l =>
      cases mt with
      | none => exact absurd rfl h2
      | some n =>
        cases ts <;> simp [TrackingService.DeleteTraces, NewError]
        split <;> simp
  · intro n res s' hn h
    simp only at hn
    subst hn
    cases ts <;> cases ids <;> simp [TrackingService.DeleteTraces, NewError] at h ⊢
    · split at h <;> simp at h
    · split at h
      · simp at h
      · omega

/-- Witness for C5: an id list together with `max_traces = 2` is rejected. -/
theorem deleteTraces_max_traces_only_with_cutoff_witness :
    ∃ err, TrackingService.DeleteTraces (sqlStore exampleEnv "u")
        { ExperimentId := some "1", RequestIds := some ["a"], MaxTraces := some 2 } {}
      = (.error err, {}) ∧ err.Code = .INVALID_PARAMETER_VALUE :=
  (deleteTraces_max_traces_only_with_cutoff (sqlStore exampleEnv "u")
    { ExperimentId := some "1", RequestIds := some ["a"], MaxTraces := some 2 } {}).1
    ⟨by simp, by simp⟩

/-! ## Purge: the rows that the store deletes -/

/-- C3, the code at the failing input: five traces of experiment `1` with ascending
timestamps below the cutoff 100 and two older traces of experiment `2`; purge of
experiment `1` with cutoff 100 and `max_traces = 2` deletes nothing and returns 0,
because the subquery takes the two oldest traces of the whole table. -/
theorem deleteTraces_oldest_taken_over_all_experiments :
    TrackingService.DeleteTraces (sqlStore exampleEnv "u")
        { ExperimentId := some "1", MaxTimestampMillis := some 100, MaxTraces := some 2 }
        sevenTraces
      = (.ok { TracesDeleted := some 0 }, sevenTraces) := by
  rfl

/-- Counterexample to C4 as stated: with the cutoff `T = 0` supplied, the trace of the
experiment created at time 5 is removed although 5 is greater than 0. -/
theorem deleteTraces_zero_cutoff_counterexample :
    ∃ db', TrackingService.DeleteTraces (sqlStore exampleEnv "u")
        { ExperimentId := some "1", MaxTimestampMillis := some 0 } oneTrace
      = (.ok { TracesDeleted := some 1 }, db') ∧ db'.trace_info = [] ∧
      ∃ r ∈ oneTrace.trace_info, r.ExperimentID = "1" ∧ ¬ r.TimestampMS ≤ 0 := by
  refine ⟨{ oneTrace with trace_info := [], trace_tags := [] }, rfl, rfl, ?_⟩
  decide

/-- The conversion `int32(n)` keeps a count below `2 ^ 31`. -/
theorem wrapInt32_of_lt (n : Nat) (h : n < 2 ^ 31) : wrapInt32 n = n := by
  unfold wrapInt32
  omega

/-- C4 (as amended): a purge request with a nonzero cutoff `T`, no id list and no
max-count removes exactly the traces of the target experiment whose `timestamp_ms` is
at most `T`: the rows that remain are the other rows, unchanged and in their order; the
returned count is the number of removed rows converted to `int32`, and equals that
number below `2 ^ 31`. -/
theorem deleteTraces_by_cutoff_removes_up_to_cutoff (env : Env) (uuid : String)
    (e : Option String) (T : Int) (hT : T ≠ 0) (db : DB) :
    ∃ db', TrackingService.DeleteTraces (sqlStore env uuid)
        { ExperimentId := e, MaxTimestampMillis := some T } db
      = (.ok { TracesDeleted := some (wrapInt32 ((db.trace_info.filter
          (fun r => r.ExperimentID == e.getD "" && decide (r.TimestampMS ≤ T))).length)) },
        db') ∧
      db'.trace_info = db.trace_info.filter
        (fun r => !(r.ExperimentID == e.getD "" && decide (r.TimestampMS ≤ T))) ∧
      db'.experiments = db.experiments ∧
      (∀ r, r ∈ db'.trace_info ↔
        r ∈ db.trace_info ∧ ¬ (r.ExperimentID = e.getD "" ∧ r.TimestampMS ≤ T)) ∧
      ((db.trace_info.filter
          (fun r => r.ExperimentID == e.getD "" && decide (r.TimestampMS ≤ T))).length < 2 ^ 31 →
        wrapInt32 ((db.trace_info.filter
          (fun r => r.ExperimentID == e.getD "" && decide (r.TimestampMS ≤ T))).length)
        = (db.trace_info.filter
          (fun r => r.ExperimentID == e.getD "" && decide (r.TimestampMS ≤ T))).length) := by
  have hsel : ∀ r : models.TraceInfo,
      TrackingSQLStore.DeleteTraces.selected db (e.getD "") T 0 [] r
        = (r.ExperimentID == e.getD "" && decide (r.TimestampMS ≤ T)) := by
    intro r
    simp [TrackingSQLStore.DeleteTraces.selected, hT]
  have hsel' : TrackingSQLStore.DeleteTraces.selected db (e.getD "") T 0 []
      = fun r => (r.ExperimentID == e.getD "" && decide (r.TimestampMS ≤ T)) := funext hsel
  refine ⟨(TrackingSQLStore.DeleteTraces (e.getD "") T 0 [] db).2, ?_, ?_, ?_, ?_,
    fun h => wrapInt32_of_lt _ h⟩
  · simp [TrackingService.DeleteTraces, sqlStore, TrackingSQLStore.DeleteTraces, hsel']
  · simp [TrackingSQLStore.DeleteTraces, TrackingSQLStore.cascadeDelete, hsel']
  · simp [TrackingSQLStore.DeleteTraces, TrackingSQLStore.cascadeDelete]
  · intro r
    simp [TrackingSQLStore.DeleteTraces, TrackingSQLStore.cascadeDelete, hsel']
    intro _
    tauto

/-- Witness for C4: cutoff 12 over the seven traces removes `a1` and `a2`. -/
theorem deleteTraces_by_cutoff_removes_up_to_cutoff_witness :
    ∃ db', TrackingService.DeleteTraces (sqlStore exampleEnv "u")
        { ExperimentId := some "1", MaxTimestampMillis := some 12 } sevenTraces
      = (.ok { TracesDeleted := some (wrapInt32 ((sevenTraces.trace_info.filter
          (fun r => r.ExperimentID == (some "1").getD "" && decide (r.TimestampMS ≤ 12))).length)) },
        db') ∧
      db'.trace_info = sevenTraces.trace_info.filter
        (fun r => !(r.ExperimentID == (some "1").getD "" && decide (r.TimestampMS ≤ 12))) ∧
      db'.experiments = sevenTraces.experiments ∧
      (∀ r, r ∈ db'.trace_info ↔
        r ∈ sevenTraces.trace_info ∧
          ¬ (r.ExperimentID = (some "1").getD "" ∧ r.TimestampMS ≤ 12)) ∧
      ((sevenTraces.trace_info.filter
          (fun r => r.ExperimentID == (some "1").getD "" && decide (r.TimestampMS ≤ 12))).length
            < 2 ^ 31 →
        wrapInt32 ((sevenTraces.trace_info.filter
          (fun r => r.ExperimentID == (some "1").getD "" && decide (r.TimestampMS ≤ 12))).length)
        = (sevenTraces.trace_info.filter
          (fun r => r.ExperimentID == (some "1").getD "" && decide (r.TimestampMS ≤ 12))).length) :=
  deleteTraces_by_cutoff_removes_up_to_cutoff exampleEnv "u" (some "1") 12 (by decide)
    sevenTraces

/-! ## Start: the tag loop and the returned trace -/

/-- The rows appended by the tag loop of `SetTrace`, with their `request_id` set to
`x`: the caller's tags other than those under the reserved key, in order. -/
theorem setTrace_tagLoop_rows (x : String) (tags : List entities.TraceTag) (requestID : String)
    (acc : List models.TraceTag) :
    (TrackingSQLStore.SetTrace.tagLoop tags requestID acc).2.map
        (fun r => { r with RequestID := x })
      = acc.map (fun r => { r with RequestID := x }) ++
        (tags.filter (fun t => decide (t.Key ≠ mockRequestIDTagKey))).map
          (fun t => { Key := t.Key, Value := t.Value, RequestID := x }) := by
  induction tags generalizing requestID acc with
  | nil => simp [TrackingSQLStore.SetTrace.tagLoop]
  | cons tag rest ih =>
    by_cases hk : tag.Key = mockRequestIDTagKey
    · simp [TrackingSQLStore.SetTrace.tagLoop, hk, ih]
    · simp [TrackingSQLStore.SetTrace.tagLoop, hk, ih, models.NewTraceTagFromEntity]

/-- The `request_id` after the tag loop of `SetTrace`: without a tag under the reserved
key it is the one the loop started with. -/
theorem setTrace_tagLoop_requestID_of_no_override (tags : List entities.TraceTag)
    (requestID : String) (acc : List models.TraceTag)
    (h : ∀ t ∈ tags, t.Key ≠ mockRequestIDTagKey) :
    (TrackingSQLStore.SetTrace.tagLoop tags requestID acc).1 = requestID := by
  induction tags generalizing requestID acc with
  | nil => simp [TrackingSQLStore.SetTrace.tagLoop]
  | cons tag rest ih =>
    have hk : tag.Key ≠ mockRequestIDTagKey := h tag (by simp)
    simp only [TrackingSQLStore.SetTrace.tagLoop, hk, if_false]
    exact ih _ _ (fun t ht => h t (by simp [ht]))

/-- The `request_id` after the tag loop of `SetTrace`: the value of the last tag under
the reserved key. -/
theorem setTrace_tagLoop_requestID_of_override (pre post : List entities.TraceTag)
    (t : entities.TraceTag) (requestID : String) (acc : List models.TraceTag)
    (ht : t.Key = mockRequestIDTagKey) (hpost : ∀ u ∈ post, u.Key ≠ mockRequestIDTagKey) :
    (TrackingSQLStore.SetTrace.tagLoop (pre ++ t :: post) requestID acc).1 = t.Value := by
  induction pre generalizing requestID acc with
  | nil =>
    simp only [List.nil_append, TrackingSQLStore.SetTrace.tagLoop, ht, if_true]
    exact setTrace_tagLoop_requestID_of_no_override post _ _ hpost
  | cons tag rest ih =>
    simp only [List.cons_append, TrackingSQLStore.SetTrace.tagLoop]
    split
    · exact ih _ _
    · exact ih _ _

/-- A list with a tag under the reserved key splits at the last such tag. -/
theorem exists_last_override (tags : List entities.TraceTag)
    (h : ∃ t ∈ tags, t.Key = mockRequestIDTagKey) :
    ∃ pre t post, tags = pre ++ t :: post ∧ t.Key = mockRequestIDTagKey ∧
      ∀ u ∈ post, u.Key ≠ mockRequestIDTagKey := by
  induction tags with
  | nil => simp at h
  | cons tag rest ih =>
    by_cases hr : ∃ t ∈ rest, t.Key = mockRequestIDTagKey
    · obtain ⟨pre, t, post, hsplit, ht, hpost⟩ := ih hr
      exact ⟨tag :: pre, t, post, by simp [hsplit], ht, hpost⟩
    · obtain ⟨t, htmem, ht⟩ := h
      have htag : tag.Key = mockRequestIDTagKey := by
        rcases List.mem_cons.1 htmem with rfl | hmem
        · exact ht
        · exact absurd ⟨t, hmem, ht⟩ hr
      exact ⟨[], tag, rest, rfl, htag, fun u hu hk => hr ⟨u, hu, hk⟩⟩

/-- What a successful `Create` returns and writes. -/
theorem Create_some (db db' : DB) (ti created : models.TraceInfo)
    (h : Create db ti = some (db', created)) :
    db.trace_info.any (fun r => r.RequestID == ti.RequestID) = false ∧
    created = { ti with
      Tags := ti.Tags.map (fun t => { t with RequestID := ti.RequestID })
      TraceRequestMetadata := ti.TraceRequestMetadata.map
        (fun m => { m with RequestID := ti.RequestID }) } ∧
    db'.experiments = db.experiments ∧
    db'.trace_info = db.trace_info ++ [{ ti with Tags := [], TraceRequestMetadata := [] }] ∧
    db'.trace_tags = (ti.Tags.map (fun t => { t with RequestID := ti.RequestID })).foldl
      insertTagIfAbsent db.trace_tags := by
  unfold Create at h
  split at h
  · simp at h
  · rename_i hany
    simp only [Option.some.injEq, Prod.mk.injEq] at h
    obtain ⟨hdb, hcreated⟩ := h
    subst hdb hcreated
    exact ⟨by simpa using hany, rfl, rfl, rfl, rfl⟩

/-- What a successful `SetTrace` returns and writes. -/
theorem SetTrace_ok (env : Env) (uuid experimentID : String) (timestampMS : Int)
    (metadata : List entities.TraceRequestMetadata) (tags : List entities.TraceTag)
    (db db' : DB) (ti : entities.TraceInfo)
    (h : TrackingSQLStore.SetTrace env uuid experimentID timestampMS metadata tags db
      = (.ok ti, db')) :
    ∃ experiment location traceInfo created,
      GetExperiment db experimentID = .ok experiment ∧
      env.artifactLocation experiment (TrackingSQLStore.SetTrace.tagLoop tags uuid []).1
        = some location ∧
      TrackingSQLStore.SetTrace.build env uuid db experimentID timestampMS metadata tags
        = .ok traceInfo ∧
      traceInfo.RequestID = (TrackingSQLStore.SetTrace.tagLoop tags uuid []).1 ∧
      traceInfo.Tags = (TrackingSQLStore.SetTrace.tagLoop tags uuid []).2 ++
        [{ Key := env.artifactLocationKey, Value := location,
           RequestID := (TrackingSQLStore.SetTrace.tagLoop tags uuid []).1 }] ∧
      traceInfo.Status = models.TraceInfoStatusInProgress ∧
      Create db traceInfo = some (db', created) ∧
      ti = created.ToEntity := by
  unfold TrackingSQLStore.SetTrace at h
  cases hb : TrackingSQLStore.SetTrace.build env uuid db experimentID timestampMS metadata tags with
  | error err => simp [hb] at h
  | ok traceInfo =>
    simp only [hb] at h
    cases hc : Create db traceInfo with
    | none => simp [hc] at h
    | some res =>
      obtain ⟨db1, created⟩ := res
      simp only [hc, Prod.mk.injEq, Except.ok.injEq] at h
      obtain ⟨hti, hdb⟩ := h
      subst hdb
      have hb' := hb
      unfold TrackingSQLStore.SetTrace.build at hb'
      cases he : GetExperiment db experimentID with
      | error err => simp [he] at hb'
      | ok experiment =>
        simp only [he] at hb'
        cases hl : env.artifactLocation experiment
            (TrackingSQLStore.SetTrace.tagLoop tags uuid []).1 with
        | none => simp [GetTraceArtifactLocationTag, hl] at hb'
        | some location =>
          simp only [GetTraceArtifactLocationTag, hl, Except.ok.injEq] at hb'
          subst hb'
          exact ⟨experiment, location, _, created, rfl, hl, rfl, rfl, rfl, rfl, hc, hti.symm⟩

/-- The trace that a successful `SetTrace` returns: status, `request_id` and tags. -/
theorem SetTrace_returned (env : Env) (uuid experimentID : String) (timestampMS : Int)
    (metadata : List entities.TraceRequestMetadata) (tags : List entities.TraceTag)
    (db db' : DB) (ti : entities.TraceInfo)
    (h : TrackingSQLStore.SetTrace env uuid experimentID timestampMS metadata tags db
      = (.ok ti, db')) :
    ti.Status = models.TraceInfoStatusInProgress ∧
    ti.RequestID = (TrackingSQLStore.SetTrace.tagLoop tags uuid []).1 ∧
    ∃ experiment location,
      GetExperiment db experimentID = .ok experiment ∧
      GetTraceArtifactLocationTag env experiment ti.RequestID
        = .ok { Key := env.artifactLocationKey, Value := location, RequestID := ti.RequestID } ∧
      ti.Tags = (tags.filter (fun t => decide (t.Key ≠ mockRequestIDTagKey))).map
          (fun t => { Key := t.Key, Value := t.Value, RequestID := ti.RequestID })
        ++ [{ Key := env.artifactLocationKey, Value := location, RequestID := ti.RequestID }] ∧
      db'.trace_tags = (ti.Tags.map
          (fun t => ({ Key := t.Key, Value := t.Value, RequestID := t.RequestID } :
            models.TraceTag))).foldl insertTagIfAbsent db.trace_tags := by
  obtain ⟨experiment, location, traceInfo, created, he, hl, _, hrid, htags, hstatus, hc, hti⟩ :=
    SetTrace_ok env uuid experimentID timestampMS metadata tags db db' ti h
  obtain ⟨_, hcreated, _, _, hrows'⟩ := Create_some db db' traceInfo created hc
  subst hti hcreated
  refine ⟨by simpa [models.TraceInfo.ToEntity] using hstatus,
    by simpa [models.TraceInfo.ToEntity] using hrid, experiment, location, he, ?_, ?_, ?_⟩
  rotate_left
  rotate_left
  · rw [hrows']
    simp [models.TraceInfo.ToEntity, models.TraceTag.ToEntity, Function.comp_def]
  · simp [models.TraceInfo.ToEntity, hrid, GetTraceArtifactLocationTag, hl]
  · have hrows := setTrace_tagLoop_rows traceInfo.RequestID tags uuid []
    simp only [models.TraceInfo.ToEntity, htags, List.map_append, List.map_map] at hrows ⊢
    rw [← List.map_map, hrows]
    simp [models.TraceTag.ToEntity, Function.comp_def]

/-- C6 (as amended): every successful `SetTrace` returns a trace with status
`IN_PROGRESS` whose tags are the caller's tags other than those under the reserved
override key, followed by the tag that the store synthesizes from the resolved
experiment and the final `request_id`. The number of returned tags carrying the
artifact-location key is one plus the number of such caller tags with that key, so the
synthesized tag is the only one exactly when the caller supplied none with that key. -/
theorem setTrace_status_and_location_tag (env : Env) (uuid experimentID : String)
    (timestampMS : Int) (metadata : List entities.TraceRequestMetadata)
    (tags : List entities.TraceTag) (db db' : DB) (ti : entities.TraceInfo)
    (h : TrackingSQLStore.SetTrace env uuid experimentID timestampMS metadata tags db
      = (.ok ti, db')) :
    ti.Status = "IN_PROGRESS" ∧
    ∃ experiment location,
      GetExperiment db experimentID = .ok experiment ∧
      GetTraceArtifactLocationTag env experiment ti.RequestID
        = .ok { Key := env.artifactLocationKey, Value := location, RequestID := ti.RequestID } ∧
      ti.Tags = (tags.filter (fun t => decide (t.Key ≠ mockRequestIDTagKey))).map
          (fun t => { Key := t.Key, Value := t.Value, RequestID := ti.RequestID })
        ++ [{ Key := env.artifactLocationKey, Value := location, RequestID := ti.RequestID }] ∧
      (ti.Tags.filter (fun t => decide (t.Key = env.artifactLocationKey))).length
        = 1 + (tags.filter (fun t => decide (t.Key ≠ mockRequestIDTagKey) &&
            decide (t.Key = env.artifactLocationKey))).length ∧
      ((∀ t ∈ tags, t.Key ≠ mockRequestIDTagKey → t.Key ≠ env.artifactLocationKey) →
        ti.Tags.filter (fun t => decide (t.Key = env.artifactLocationKey))
          = [{ Key := env.artifactLocationKey, Value := location,
               RequestID := ti.RequestID }]) := by
  obtain ⟨hstatus, _, experiment, location, he, hloc, htags, _⟩ :=
    SetTrace_returned env uuid experimentID timestampMS metadata tags db db' ti h
  refine ⟨hstatus, experiment, location, he, hloc, htags, ?_, ?_⟩
  · rw [htags]
    simp [List.filter_map, List.filter_filter, Function.comp_def, Bool.and_comm, Nat.add_comm]
  · intro hnone
    rw [htags]
    simp only [List.filter_append, List.filter_map, List.filter_filter, Function.comp_def]
    simp
    intro t ht hk
    by_contra hne
    exact hnone t ht hne hk

/-- Witness for C6: a start with one caller tag `k = v`. -/
theorem setTrace_status_and_location_tag_witness :
    ∃ ti db', TrackingSQLStore.SetTrace exampleEnv "u" "1" 5 []
        [{ Key := "k", Value := "v" }] noTrace = (.ok ti, db') ∧
      ti.Status = "IN_PROGRESS" :=
  ⟨_, _, rfl, (setTrace_status_and_location_tag exampleEnv "u" "1" 5 []
    [{ Key := "k", Value := "v" }] noTrace _ _ rfl).1⟩

/-- Counterexample to C6 as stated: the caller supplies a tag under the
artifact-location key; the start succeeds and the returned trace carries two tags with
that key, the caller's and the synthesized one. -/
theorem setTrace_location_tag_counterexample :
    ∃ ti db', TrackingSQLStore.SetTrace exampleEnv "u" "1" 5 []
        [{ Key := "mlflow.artifactLocation", Value := "s3://elsewhere" }] noTrace = (.ok ti, db') ∧
      ti.Tags.filter (fun t => decide (t.Key = exampleEnv.artifactLocationKey))
        = [{ Key := "mlflow.artifactLocation", Value := "s3://elsewhere", RequestID := "u" },
           { Key := "mlflow.artifactLocation",
             Value := "file:///mlruns/1/traces/u/artifacts", RequestID := "u" }] :=
  ⟨_, _, rfl, by decide⟩

/-! ## Start: the override of the `request_id` -/

/-- The rows appended by the tag loop of `SetTraceV3`, with their `request_id` set to
`x`. -/
theorem setTraceV3_tagLoop_rows (x inputRequestID : String) (tags : List entities.TraceTag)
    (requestID : String) (acc : List models.TraceTag) :
    (TrackingSQLStore.SetTraceV3.tagLoop inputRequestID tags requestID acc).2.map
        (fun r => { r with RequestID := x })
      = acc.map (fun r => { r with RequestID := x }) ++
        (tags.filter (fun t => decide (t.Key ≠ mockRequestIDTagKey))).map
          (fun t => { Key := t.Key, Value := t.Value, RequestID := x }) := by
  induction tags generalizing requestID acc with
  | nil => simp [TrackingSQLStore.SetTraceV3.tagLoop]
  | cons tag rest ih =>
    by_cases hk : tag.Key = mockRequestIDTagKey
    · simp [TrackingSQLStore.SetTraceV3.tagLoop, hk, ih]
    · simp [TrackingSQLStore.SetTraceV3.tagLoop, hk, ih, models.NewTraceTagFromEntity]

/-- The `request_id` after the tag loop of `SetTraceV3` without a tag under the
reserved key. -/
theorem setTraceV3_tagLoop_requestID_of_no_override (inputRequestID : String)
    (tags : List entities.TraceTag) (requestID : String) (acc : List models.TraceTag)
    (h : ∀ t ∈ tags, t.Key ≠ mockRequestIDTagKey) :
    (TrackingSQLStore.SetTraceV3.tagLoop inputRequestID tags requestID acc).1 = requestID := by
  induction tags generalizing requestID acc with
  | nil => simp [TrackingSQLStore.SetTraceV3.tagLoop]
  | cons tag rest ih =>
    have hk : tag.Key ≠ mockRequestIDTagKey := h tag (by simp)
    simp only [TrackingSQLStore.SetTraceV3.tagLoop, hk, if_false]
    exact ih _ _ (fun t ht => h t (by simp [ht]))

/-- The `request_id` after the tag loop of `SetTraceV3`: the value of the last tag under
the reserved key. -/
theorem setTraceV3_tagLoop_requestID_of_override (inputRequestID : String)
    (pre post : List entities.TraceTag) (t : entities.TraceTag) (requestID : String)
    (acc : List models.TraceTag) (ht : t.Key = mockRequestIDTagKey)
    (hpost : ∀ u ∈ post, u.Key ≠ mockRequestIDTagKey) :
    (TrackingSQLStore.SetTraceV3.tagLoop inputRequestID (pre ++ t :: post) requestID acc).1
      = t.Value := by
  induction pre generalizing requestID acc with
  | nil =>
    simp only [List.nil_append, TrackingSQLStore.SetTraceV3.tagLoop, ht, if_true]
    exact setTraceV3_tagLoop_requestID_of_no_override _ post _ _ hpost
  | cons tag rest ih =>
    simp only [List.cons_append, TrackingSQLStore.SetTraceV3.tagLoop]
    split
    · exact ih _ _
    · exact ih _ _

/-- The trace that a successful `SetTraceV3` returns: `request_id`, tags and the tag
rows written. -/
theorem SetTraceV3_returned (env : Env) (traceInfoV3 : entities.TraceInfoV3)
    (metadata : List entities.TraceRequestMetadata) (tags : List entities.TraceTag)
    (db db' : DB) (ti : entities.TraceInfoV3)
    (h : TrackingSQLStore.SetTraceV3 env traceInfoV3 metadata tags db = some (.ok ti, db')) :
    ti.Status = traceInfoV3.Status ∧
    ti.RequestID
      = (TrackingSQLStore.SetTraceV3.tagLoop traceInfoV3.RequestID tags
          traceInfoV3.RequestID []).1 ∧
    ∃ experiment location,
      GetExperiment db traceInfoV3.ExperimentID = .ok experiment ∧
      GetTraceArtifactLocationTag env experiment ti.RequestID
        = .ok { Key := env.artifactLocationKey, Value := location, RequestID := ti.RequestID } ∧
      ti.Tags = (tags.filter (fun t => decide (t.Key ≠ mockRequestIDTagKey))).map
          (fun t => { Key := t.Key, Value := t.Value, RequestID := ti.RequestID })
        ++ [{ Key := env.artifactLocationKey, Value := location, RequestID := ti.RequestID }] ∧
      db'.trace_tags = (ti.Tags.map
          (fun t => ({ Key := t.Key, Value := t.Value, RequestID := t.RequestID } :
            models.TraceTag))).foldl insertTagIfAbsent db.trace_tags := by
  unfold TrackingSQLStore.SetTraceV3 at h
  cases hb : TrackingSQLStore.SetTraceV3.build env db traceInfoV3 metadata tags with
  | none => simp [hb] at h
  | some built =>
    cases built with
    | error err => simp [hb] at h
    | ok traceInfo =>
      simp only [hb] at h
      cases hc : Create db traceInfo with
      | none => simp [hc] at h
      | some res =>
        obtain ⟨db1, created⟩ := res
        simp only [hc, Option.some.injEq, Prod.mk.injEq, Except.ok.injEq] at h
        obtain ⟨hti, hdb⟩ := h
        subst hdb
        obtain ⟨_, hcreated, _, _, hrows'⟩ := Create_some db db1 traceInfo created hc
        unfold TrackingSQLStore.SetTraceV3.build at hb
        cases he : GetExperiment db traceInfoV3.ExperimentID with
        | error err => simp [he] at hb
        | ok experiment =>
          simp only [he] at hb
          split at hb
          · rename_i v1 v2 v3 v4 h1 h2 h3 h4
            cases hl : env.artifactLocation experiment
                (TrackingSQLStore.SetTraceV3.tagLoop traceInfoV3.RequestID tags
                  traceInfoV3.RequestID []).1 with
            | none => simp [GetTraceArtifactLocationTag, hl] at hb
            | some location =>
              simp only [GetTraceArtifactLocationTag, hl, Option.some.injEq,
                Except.ok.injEq] at hb
              subst hb hti hcreated
              refine ⟨rfl, rfl, experiment, location, rfl, ?_, ?_, ?_⟩
              · simp [models.TraceInfo.ToTraceInfoV3Entity, GetTraceArtifactLocationTag, hl]
              · have hrows := setTraceV3_tagLoop_rows
                  (TrackingSQLStore.SetTraceV3.tagLoop traceInfoV3.RequestID tags
                    traceInfoV3.RequestID []).1 traceInfoV3.RequestID tags
                  traceInfoV3.RequestID []
                simp only [models.TraceInfo.ToTraceInfoV3Entity, List.map_append,
                  List.map_map] at hrows ⊢
                rw [← List.map_map, hrows]
                simp [models.TraceTag.ToEntity, Function.comp_def]
              · rw [hrows']
                simp [models.TraceInfo.ToTraceInfoV3Entity, models.TraceTag.ToEntity,
                  Function.comp_def]
          · simp at hb

/-- A row of the table after the ORM has written child rows is an old row or one of
the rows written. -/
theorem mem_foldl_insertTagIfAbsent (rows base : List models.TraceTag) (r : models.TraceTag)
    (h : r ∈ rows.foldl insertTagIfAbsent base) : r ∈ base ∨ r ∈ rows := by
  induction rows generalizing base with
  | nil => exact Or.inl (by simpa using h)
  | cons row rest ih =>
    simp only [List.foldl_cons] at h
    rcases ih _ h with hb | hr
    · unfold insertTagIfAbsent at hb
      split at hb
      · exact Or.inl hb
      · rcases List.mem_append.1 hb with hb | hb
        · exact Or.inl hb
        · exact Or.inr (by simp at hb; simp [hb])
    · exact Or.inr (by simp [hr])

/-- Writing child rows keeps the primary keys that are present. -/
theorem key_mem_foldl_insertTagIfAbsent (rows base : List models.TraceTag)
    (requestID key : String)
    (h : ∃ r ∈ base, r.RequestID = requestID ∧ r.Key = key) :
    ∃ r ∈ rows.foldl insertTagIfAbsent base, r.RequestID = requestID ∧ r.Key = key := by
  induction rows generalizing base with
  | nil => simpa using h
  | cons row rest ih =>
    simp only [List.foldl_cons]
    apply ih
    obtain ⟨r, hr, hk⟩ := h
    refine ⟨r, ?_, hk⟩
    unfold insertTagIfAbsent
    split
    · exact hr
    · exact List.mem_append_left _ hr

/-- After the ORM has written child rows, the table has a row under the primary key of
each of them. -/
theorem key_mem_foldl_insertTagIfAbsent_of_mem (rows base : List models.TraceTag)
    (row : models.TraceTag) (h : row ∈ rows) :
    ∃ r ∈ rows.foldl insertTagIfAbsent base, r.RequestID = row.RequestID ∧ r.Key = row.Key := by
  induction rows generalizing base with
  | nil => simp at h
  | cons first rest ih =>
    simp only [List.foldl_cons]
    rcases List.mem_cons.1 h with rfl | hrest
    · apply key_mem_foldl_insertTagIfAbsent
      unfold insertTagIfAbsent
      split
      · rename_i hany
        obtain ⟨r, hr, hk⟩ := List.any_eq_true.1 hany
        exact ⟨r, hr, by simpa using hk⟩
      · exact ⟨row, by simp, rfl, rfl⟩
    · exact ih _ hrest

/-! ## End: status and execution time -/

/-- The row that `GetTraceInfo` reads after the `UpdateColumns` statement of
`EndTrace`. -/
theorem find_updateStatusAndExecutionTime (db : DB) (requestID status : String)
    (executionTimeMS : Int) (row : models.TraceInfo)
    (hrow : db.trace_info.find? (fun r => r.RequestID == requestID) = some row) :
    (TrackingSQLStore.updateStatusAndExecutionTime db requestID status
        executionTimeMS).trace_info.find? (fun r => r.RequestID == requestID)
      = some { row with Status := status, ExecutionTimeMS := some executionTimeMS } := by
  have hid : (row.RequestID == requestID) = true := by
    simpa using List.find?_some hrow
  have hcomp : ((fun r : models.TraceInfo => r.RequestID == requestID) ∘
      (fun r : models.TraceInfo =>
        if r.RequestID == requestID then
          { r with Status := status, ExecutionTimeMS := some executionTimeMS }
        else r)) = fun r => r.RequestID == requestID := by
    funext r
    simp only [Function.comp]
    split <;> rfl
  simp only [TrackingSQLStore.updateStatusAndExecutionTime, List.find?_map, hcomp, hrow,
    Option.map_some', hid, if_true]

/-- Within the `int64` range the reduction is the identity. -/
theorem wrapInt64_of_range (x : Int) (h1 : -2 ^ 63 ≤ x) (h2 : x < 2 ^ 63) :
    wrapInt64 x = x := by
  unfold wrapInt64
  omega

/-- An end call without a failure of the engine, on a trace that exists: the call is
the second lookup on the state after the three statements. -/
theorem EndTrace_of_found (requestID : String) (t1 : Int) (status : String)
    (metadata : List entities.TraceRequestMetadata) (tags : List entities.TraceTag) (db : DB)
    (row : models.TraceInfo)
    (hrow : db.trace_info.find? (fun r => r.RequestID == requestID) = some row) :
    TrackingSQLStore.EndTrace {} requestID t1 status metadata tags db
      = TrackingSQLStore.GetTraceInfo requestID
          (TrackingSQLStore.createTraceMetadata
            (TrackingSQLStore.createTraceTags
              (TrackingSQLStore.updateStatusAndExecutionTime db requestID status
                (wrapInt64 (t1 - row.TimestampMS))) requestID tags) requestID metadata) := by
  have hid : row.RequestID = requestID := by
    simpa using List.find?_some hrow
  simp [TrackingSQLStore.EndTrace, TrackingSQLStore.GetTraceInfo, hrow,
    models.TraceInfo.ToEntity, hid]

/-- An end call that succeeds met no failure of the engine. -/
theorem EndTrace_ok_no_fault (faults : EndTraceFaults) (requestID : String) (t1 : Int)
    (status : String) (metadata : List entities.TraceRequestMetadata)
    (tags : List entities.TraceTag) (db db' : DB) (ti : entities.TraceInfo)
    (h : TrackingSQLStore.EndTrace faults requestID t1 status metadata tags db = (.ok ti, db')) :
    TrackingSQLStore.EndTrace {} requestID t1 status metadata tags db = (.ok ti, db') := by
  obtain ⟨f1, f2, f3, f4, f5⟩ := faults
  unfold TrackingSQLStore.EndTrace at h
  split at h
  · simp at h
  · rename_i traceInfo hget
    cases f1 with
    | some c => simp at h
    | none =>
      cases f2 with
      | some c => simp at h
      | none =>
        cases f3 with
        | some c => simp at h
        | none =>
          cases f4 with
          | some c => simp at h
          | none =>
            cases f5 with
            | some c => simp [NewError] at h
            | none =>
              simp only at h
              simp only [TrackingSQLStore.EndTrace, hget]
              exact h

/-- The trace read back after the three statements of an end call on a trace that
exists. -/
theorem GetTraceInfo_after_end (requestID : String) (t1 : Int) (status : String)
    (metadata : List entities.TraceRequestMetadata) (tags : List entities.TraceTag) (db : DB)
    (row : models.TraceInfo)
    (hrow : db.trace_info.find? (fun r => r.RequestID == requestID) = some row) :
    ∃ ti, TrackingSQLStore.GetTraceInfo requestID
      (TrackingSQLStore.createTraceMetadata
        (TrackingSQLStore.createTraceTags
          (TrackingSQLStore.updateStatusAndExecutionTime db requestID status
            (wrapInt64 (t1 - row.TimestampMS))) requestID tags) requestID metadata)
      = (.ok ti, TrackingSQLStore.createTraceMetadata
        (TrackingSQLStore.createTraceTags
          (TrackingSQLStore.updateStatusAndExecutionTime db requestID status
            (wrapInt64 (t1 - row.TimestampMS))) requestID tags) requestID metadata) ∧
      ti.ExecutionTimeMS = some (wrapInt64 (t1 - row.TimestampMS)) ∧
      ti.Status = status ∧ ti.TimestampMS = row.TimestampMS ∧ ti.RequestID = requestID := by
  have hid : row.RequestID = requestID := by
    simpa using List.find?_some hrow
  have hfind' : (TrackingSQLStore.createTraceMetadata
      (TrackingSQLStore.createTraceTags
        (TrackingSQLStore.updateStatusAndExecutionTime db requestID status
          (wrapInt64 (t1 - row.TimestampMS))) requestID tags) requestID
            metadata).trace_info.find? (fun r => r.RequestID == requestID)
      = some { row with Status := status,
                        ExecutionTimeMS := some (wrapInt64 (t1 - row.TimestampMS)) } :=
    find_updateStatusAndExecutionTime db requestID status
      (wrapInt64 (t1 - row.TimestampMS)) row hrow
  simp only [TrackingSQLStore.GetTraceInfo, hfind']
  exact ⟨_, rfl, rfl, rfl, rfl, hid⟩

/-- C8 (as amended): for a trace that exists with creation timestamp `t0` and every end
call `EndTrace(id, t1, status, metadata, tags)` that succeeds, whatever the engine does,
a following `GetTraceInfo(id)` returns the same trace as the call: its
`execution_time_ms` is present and is `t1 - t0` computed in `int64`, which is `t1 - t0`
whenever that difference is in the `int64` range, against the unchanged creation
timestamp, and its status is the status declared in the call. -/
theorem endTrace_sets_status_and_execution_time (faults : EndTraceFaults)
    (requestID : String) (t1 : Int) (status : String)
    (metadata : List entities.TraceRequestMetadata) (tags : List entities.TraceTag)
    (db db' : DB) (row : models.TraceInfo) (ti : entities.TraceInfo)
    (hrow : db.trace_info.find? (fun r => r.RequestID == requestID) = some row)
    (h : TrackingSQLStore.EndTrace faults requestID t1 status metadata tags db = (.ok ti, db')) :
    TrackingSQLStore.GetTraceInfo requestID db' = (.ok ti, db') ∧
      ti.ExecutionTimeMS = some (wrapInt64 (t1 - row.TimestampMS)) ∧
      (-2 ^ 63 ≤ t1 - row.TimestampMS → t1 - row.TimestampMS < 2 ^ 63 →
        ti.ExecutionTimeMS = some (t1 - row.TimestampMS)) ∧
      ti.Status = status ∧
      ti.TimestampMS = row.TimestampMS ∧
      ti.RequestID = requestID := by
  have h0 := EndTrace_ok_no_fault faults requestID t1 status metadata tags db db' ti h
  rw [EndTrace_of_found requestID t1 status metadata tags db row hrow] at h0
  obtain ⟨ti', hti, hexec, hstatus, hts, hrid⟩ :=
    GetTraceInfo_after_end requestID t1 status metadata tags db row hrow
  rw [hti] at h0
  simp only [Prod.mk.injEq, Except.ok.injEq] at h0
  obtain ⟨h1, h2⟩ := h0
  subst h1 h2
  refine ⟨hti, hexec, ?_, hstatus, hts, hrid⟩
  intro h1 h2
  rw [hexec, wrapInt64_of_range _ h1 h2]

/-- Witness for C8: the trace created at time 5 is ended at time 12 with status `OK`. -/
theorem endTrace_sets_status_and_execution_time_witness :
    ∃ ti db', TrackingSQLStore.EndTrace {} "a" 12 "OK" [] [] oneTrace = (.ok ti, db') ∧
      TrackingSQLStore.GetTraceInfo "a" db' = (.ok ti, db') ∧
      ti.ExecutionTimeMS = some (wrapInt64 (12 - 5)) ∧
      (-2 ^ 63 ≤ (12 : Int) - 5 → (12 : Int) - 5 < 2 ^ 63 → ti.ExecutionTimeMS = some (12 - 5)) ∧
      ti.Status = "OK" ∧ ti.TimestampMS = 5 ∧ ti.RequestID = "a" :=
  ⟨_, _, rfl,
    endTrace_sets_status_and_execution_time {} "a" 12 "OK" [] [] oneTrace _
      { RequestID := "a", ExperimentID := "1", TimestampMS := 5,
        Status := models.TraceInfoStatusInProgress } _ rfl rfl⟩

/-- Counterexample to C8 as stated: a trace created at `t0 = -1` and ended at
`t1 = 2 ^ 63 - 1`; the call succeeds and the execution time read back is `-2 ^ 63`, not
`t1 - t0 = 2 ^ 63`. -/
theorem endTrace_execution_time_counterexample :
    ∃ ti db', TrackingSQLStore.EndTrace {} "a" (2 ^ 63 - 1) "OK" [] []
        { trace_info := [{ RequestID := "a", ExperimentID := "1", TimestampMS := -1,
                           Status := "IN_PROGRESS" }] } = (.ok ti, db') ∧
      TrackingSQLStore.GetTraceInfo "a" db' = (.ok ti, db') ∧
      ti.ExecutionTimeMS = some (-2 ^ 63) ∧
      ti.ExecutionTimeMS ≠ some ((2 ^ 63 - 1) - (-1)) :=
  ⟨_, _, rfl, rfl, by decide, by decide⟩

/-! ## Status changes -/

/-- The rows of `trace_info` after `SetTrace`: unchanged, or one more row under a
`request_id` that was not there. -/
theorem SetTrace_trace_info (env : Env) (uuid experimentID : String) (timestampMS : Int)
    (metadata : List entities.TraceRequestMetadata) (tags : List entities.TraceTag) (db : DB) :
    (TrackingSQLStore.SetTrace env uuid experimentID timestampMS metadata tags db).2 = db ∨
    ∃ row, (TrackingSQLStore.SetTrace env uuid experimentID timestampMS metadata tags
        db).2.trace_info = db.trace_info ++ [row] ∧
      db.trace_info.any (fun r => r.RequestID == row.RequestID) = false := by
  unfold TrackingSQLStore.SetTrace
  cases TrackingSQLStore.SetTrace.build env uuid db experimentID timestampMS metadata tags with
  | error err => exact Or.inl rfl
  | ok traceInfo =>
    cases hc : Create db traceInfo with
    | none => exact Or.inl (by simp only [hc])
    | some res =>
      obtain ⟨db1, created⟩ := res
      obtain ⟨hany, _, _, hrows, _⟩ := Create_some db db1 traceInfo created hc
      exact Or.inr ⟨{ traceInfo with Tags := [], TraceRequestMetadata := [] },
        by simp only [hc]; exact hrows, hany⟩

/-- The rows of `trace_info` after `EndTrace`: unchanged when the trace is not found,
otherwise the rows after the `UpdateColumns` statement. -/
theorem EndTrace_trace_info (requestID : String) (timestampMS : Int) (status : String)
    (metadata : List entities.TraceRequestMetadata) (tags : List entities.TraceTag) (db : DB) :
    (db.trace_info.find? (fun r => r.RequestID == requestID) = none ∧
      (TrackingSQLStore.EndTrace {} requestID timestampMS status metadata tags db).2 = db) ∨
    ∃ executionTimeMS,
      (TrackingSQLStore.EndTrace {} requestID timestampMS status metadata tags db).2.trace_info
        = (TrackingSQLStore.updateStatusAndExecutionTime db requestID status
            executionTimeMS).trace_info := by
  cases hrow : db.trace_info.find? (fun r => r.RequestID == requestID) with
  | none =>
    exact Or.inl ⟨rfl, by simp [TrackingSQLStore.EndTrace, TrackingSQLStore.GetTraceInfo, hrow]⟩
  | some row =>
    refine Or.inr ⟨wrapInt64 (timestampMS - row.TimestampMS), ?_⟩
    have hid : row.RequestID = requestID := by simpa using List.find?_some hrow
    simp only [TrackingSQLStore.EndTrace, TrackingSQLStore.GetTraceInfo, hrow,
      models.TraceInfo.ToEntity, hid]
    split <;> rfl

/-- The row found under a `request_id` after the `UpdateColumns` statement of
`EndTrace`, for any `request_id`. -/
theorem find_after_update (db : DB) (rid status : String) (executionTimeMS : Int)
    (requestID : String) :
    (TrackingSQLStore.updateStatusAndExecutionTime db rid status
        executionTimeMS).trace_info.find? (fun r => r.RequestID == requestID)
      = (db.trace_info.find? (fun r => r.RequestID == requestID)).map (fun r =>
          if r.RequestID == rid then
            { r with Status := status, ExecutionTimeMS := some executionTimeMS }
          else r) := by
  have hcomp : ((fun r : models.TraceInfo => r.RequestID == requestID) ∘
      (fun r : models.TraceInfo =>
        if r.RequestID == rid then
          { r with Status := status, ExecutionTimeMS := some executionTimeMS }
        else r)) = fun r => r.RequestID == requestID := by
    funext r
    simp only [Function.comp]
    split <;> rfl
  simp only [TrackingSQLStore.updateStatusAndExecutionTime, List.find?_map, hcomp]

/-- The `request_id` column after the `UpdateColumns` statement of `EndTrace`. -/
theorem requestIDs_after_update (db : DB) (rid status : String) (executionTimeMS : Int) :
    (TrackingSQLStore.updateStatusAndExecutionTime db rid status
        executionTimeMS).trace_info.map (fun r => r.RequestID)
      = db.trace_info.map (fun r => r.RequestID) := by
  simp only [TrackingSQLStore.updateStatusAndExecutionTime, List.map_map]
  congr 1
  funext r
  simp only [Function.comp]
  split <;> rfl

/-- Every operation keeps the primary key of `trace_info`. -/
theorem primaryKey_run (env : Env) (op : Op) (db : DB) (hpk : PrimaryKey db) :
    PrimaryKey (op.run env db) := by
  unfold PrimaryKey at *
  cases op with
  | start uuid experimentID timestampMS metadata tags =>
    rcases SetTrace_trace_info env uuid experimentID timestampMS metadata tags db with
      h | ⟨row, hrows, hany⟩
    · simp only [Op.run, h]
      exact hpk
    · simp only [Op.run, hrows, List.map_append, List.map_cons, List.map_nil]
      refine List.Nodup.append hpk (List.nodup_singleton _) ?_
      intro x hx hx'
      simp only [List.mem_singleton] at hx'
      subst hx'
      obtain ⟨r, hr, hrx⟩ := List.mem_map.1 hx
      have : db.trace_info.any (fun r => r.RequestID == row.RequestID) = true :=
        List.any_eq_true.2 ⟨r, hr, by simpa using hrx⟩
      simp [hany] at this
  | endTrace requestID timestampMS status metadata tags =>
    rcases EndTrace_trace_info requestID timestampMS status metadata tags db with
      ⟨_, h⟩ | ⟨e, h⟩
    · simp only [Op.run, h]
      exact hpk
    · simp only [Op.run, h, requestIDs_after_update]
      exact hpk
  | setTag requestID key value => exact hpk
  | deleteTag traceID key =>
    simp only [Op.run, TrackingSQLStore.GetTraceTag]
    split <;> rename_i heq <;> split at heq <;> simp at heq <;> obtain ⟨_, rfl⟩ := heq <;>
      exact hpk
  | purge experimentID maxTimestampMillis maxTraces requestIDs =>
    simp only [Op.run, TrackingSQLStore.DeleteTraces, TrackingSQLStore.cascadeDelete]
    exact List.Nodup.sublist ((List.filter_sublist _).map _) hpk

/-- C9 (as amended): from every store state that keeps the primary key of
`trace_info`, every operation keeps it, and the status of an existing trace is changed
only by an end call on that trace: start, set tag, delete tag and an end call on another
trace leave its status as it is, purge leaves it as it is or removes the trace, and an
end call on the trace sets the status declared in the call, whatever the status was
(there is no check of the current status). -/
theorem status_changes_only_by_end (env : Env) (db : DB) (requestID s : String)
    (hpk : PrimaryKey db) (hs : statusOf db requestID = some s) :
    (∀ op : Op, PrimaryKey (op.run env db)) ∧
    (∀ uuid experimentID timestampMS metadata tags,
      statusOf ((Op.start uuid experimentID timestampMS metadata tags).run env db) requestID
        = some s) ∧
    (∀ rid key value, statusOf ((Op.setTag rid key value).run env db) requestID = some s) ∧
    (∀ traceID key, statusOf ((Op.deleteTag traceID key).run env db) requestID = some s) ∧
    (∀ experimentID maxTimestampMillis maxTraces requestIDs,
      statusOf ((Op.purge experimentID maxTimestampMillis maxTraces requestIDs).run env db)
          requestID = some s ∨
        statusOf ((Op.purge experimentID maxTimestampMillis maxTraces requestIDs).run env db)
          requestID = none) ∧
    (∀ rid timestampMS status metadata tags, rid ≠ requestID →
      statusOf ((Op.endTrace rid timestampMS status metadata tags).run env db) requestID
        = some s) ∧
    (∀ timestampMS status metadata tags,
      statusOf ((Op.endTrace requestID timestampMS status metadata tags).run env db) requestID
        = some status) := by
  obtain ⟨row, hrow, hstatus⟩ : ∃ row,
      db.trace_info.find? (fun r => r.RequestID == requestID) = some row ∧ row.Status = s := by
    unfold statusOf at hs
    cases hfind : db.trace_info.find? (fun r => r.RequestID == requestID) with
    | none => simp [hfind] at hs
    | some row => exact ⟨row, rfl, by simpa [hfind] using hs⟩
  have hid : row.RequestID = requestID := by simpa using List.find?_some hrow
  refine ⟨fun op => primaryKey_run env op db hpk, ?_, ?_, ?_, ?_, ?_, ?_⟩
  · intro uuid experimentID timestampMS metadata tags
    rcases SetTrace_trace_info env uuid experimentID timestampMS metadata tags db with
      h | ⟨new, hrows, _⟩
    · simp only [Op.run, h]
      exact hs
    · simp [Op.run, statusOf, hrows, List.find?_append, hrow, hstatus]
  · intro rid key value
    exact hs
  · intro traceID key
    have hsame : ((Op.deleteTag traceID key).run env db).trace_info = db.trace_info := by
      simp only [Op.run, TrackingSQLStore.GetTraceTag]
      split <;> rename_i heq <;> split at heq <;> simp at heq <;> obtain ⟨_, rfl⟩ := heq <;> rfl
    simp only [statusOf, hsame]
    exact hs
  · intro experimentID maxTimestampMillis maxTraces requestIDs
    have hrows : ((Op.purge experimentID maxTimestampMillis maxTraces requestIDs).run env
        db).trace_info = db.trace_info.filter (fun r =>
          !TrackingSQLStore.DeleteTraces.selected db experimentID maxTimestampMillis maxTraces
            requestIDs r) := rfl
    simp only [statusOf, hrows]
    cases hfind : (db.trace_info.filter (fun r =>
        !TrackingSQLStore.DeleteTraces.selected db experimentID maxTimestampMillis maxTraces
          requestIDs r)).find? (fun r => r.RequestID == requestID) with
    | none => exact Or.inr rfl
    | some kept =>
      left
      have hmem : kept ∈ db.trace_info :=
        (List.mem_filter.1 (List.mem_of_find?_eq_some hfind)).1
      have hkid : kept.RequestID = requestID := by simpa using List.find?_some hfind
      have heq : kept = row :=
        List.inj_on_of_nodup_map hpk hmem (List.mem_of_find?_eq_some hrow)
          (hkid.trans hid.symm)
      simp [heq, hstatus]
  · intro rid timestampMS status metadata tags hne
    rcases EndTrace_trace_info rid timestampMS status metadata tags db with ⟨_, h⟩ | ⟨e, h⟩
    · simp only [Op.run, h]
      exact hs
    · have hrid : ¬ row.RequestID = rid := by
        rw [hid]
        exact fun h' => hne h'.symm
      simp [Op.run, statusOf, h, find_after_update, hrow, hrid, hstatus]
  · intro timestampMS status metadata tags
    rcases EndTrace_trace_info requestID timestampMS status metadata tags db with
      ⟨hnone, _⟩ | ⟨e, h⟩
    · simp [hrow] at hnone
    · simp [Op.run, statusOf, h, find_after_update, hrow, hid]

/-- Witness for C9: the trace `a` of `oneTrace`, in progress. -/
theorem status_changes_only_by_end_witness :
    statusOf ((Op.endTrace "a" 9 "OK" [] []).run exampleEnv oneTrace) "a" = some "OK" :=
  (status_changes_only_by_end exampleEnv oneTrace "a" "IN_PROGRESS"
    (by unfold PrimaryKey; decide) rfl).2.2.2.2.2.2
    9 "OK" [] []

/-- Counterexample to C9 as stated: through the service, a trace is started, ended with
status `OK`, and ended again with status `IN_PROGRESS`; the second end call succeeds
and the terminal trace is `IN_PROGRESS` again. -/
theorem endTrace_reopens_terminal_trace_counterexample :
    statusOf
        (TrackingService.EndTrace exampleEnv (sqlStore exampleEnv "b")
          { RequestId := some "a", TimestampMs := some 9, Status := some .OK }
          (TrackingService.StartTrace exampleEnv (sqlStore exampleEnv "a")
            { ExperimentId := some "1", TimestampMs := some 5 } noTrace).2).2 "a"
      = some "OK" ∧
    statusOf
        (TrackingService.EndTrace exampleEnv (sqlStore exampleEnv "c")
          { RequestId := some "a", TimestampMs := some 20, Status := some .IN_PROGRESS }
          (TrackingService.EndTrace exampleEnv (sqlStore exampleEnv "b")
            { RequestId := some "a", TimestampMs := some 9, Status := some .OK }
            (TrackingService.StartTrace exampleEnv (sqlStore exampleEnv "a")
              { ExperimentId := some "1", TimestampMs := some 5 } noTrace).2).2).2 "a"
      = some "IN_PROGRESS" := by
  constructor <;> rfl

/-! ## Start and end on a missing experiment or trace -/

/-- A start whose experiment lookup fails with `err`: the store returns `err` itself
and writes nothing; the service reports an `INTERNAL_ERROR` whose message embeds the
text of `err`, whatever the code of `err` is. -/
theorem startTrace_on_failed_lookup (env : Env) (uuid : String) (input : protos.StartTrace)
    (db : DB) (err : Error) (hlookup : GetExperiment db (input.ExperimentId.getD "") = .error err) :
    TrackingSQLStore.SetTrace env uuid (input.ExperimentId.getD "") (input.TimestampMs.getD 0)
        (entities.TraceRequestMetadataFromStartTraceProtoInput input.RequestMetadata)
        (entities.TagsFromStartTraceProtoInput input.Tags) db = (.error err, db) ∧
    TrackingService.StartTrace env (sqlStore env uuid) input db
      = (.error (NewError .INTERNAL_ERROR ("error starting trace: " ++ env.errorText err)), db) := by
  have hstore : TrackingSQLStore.SetTrace env uuid (input.ExperimentId.getD "")
      (input.TimestampMs.getD 0)
      (entities.TraceRequestMetadataFromStartTraceProtoInput input.RequestMetadata)
      (entities.TagsFromStartTraceProtoInput input.Tags) db = (.error err, db) := by
    simp [TrackingSQLStore.SetTrace, TrackingSQLStore.SetTrace.build, hlookup]
  exact ⟨hstore, by simp [TrackingService.StartTrace, sqlStore, hstore]⟩

/-- An end on a `request_id` without a trace: the store returns the not-found error of
`GetTraceInfo` and writes nothing; the service reports an `INTERNAL_ERROR` whose
message embeds the text of that error. -/
theorem endTrace_on_missing_trace (env : Env) (uuid : String) (input : protos.EndTrace)
    (db : DB)
    (hmissing : db.trace_info.find? (fun r => r.RequestID == input.RequestId.getD "") = none) :
    ∃ err, err.Code = .RESOURCE_DOES_NOT_EXIST ∧
      TrackingSQLStore.EndTrace env.endTraceFaults (input.RequestId.getD "")
        (input.TimestampMs.getD 0)
        (input.Status.getD .TRACE_STATUS_UNSPECIFIED).String
        (entities.TraceRequestMetadataFromStartTraceProtoInput input.RequestMetadata)
        (entities.TagsFromStartTraceProtoInput input.Tags) db = (.error err, db) ∧
      TrackingService.EndTrace env (sqlStore env uuid) input db
        = (.error (NewError .INTERNAL_ERROR ("error ending trace: " ++ env.errorText err)), db) := by
  have hstore : TrackingSQLStore.EndTrace env.endTraceFaults (input.RequestId.getD "")
      (input.TimestampMs.getD 0)
      (input.Status.getD .TRACE_STATUS_UNSPECIFIED).String
      (entities.TraceRequestMetadataFromStartTraceProtoInput input.RequestMetadata)
      (entities.TagsFromStartTraceProtoInput input.Tags) db
      = (.error (NewError .RESOURCE_DOES_NOT_EXIST
          ("Trace with request_id '" ++ input.RequestId.getD "" ++ "' not found.")), db) := by
    simp [TrackingSQLStore.EndTrace, TrackingSQLStore.GetTraceInfo, hmissing]
  exact ⟨_, rfl, hstore, by simp [TrackingService.EndTrace, sqlStore, hstore]⟩

/-- C10, the code at the failing input: a start on experiment `404`, which does not
exist, and an end on `request_id` `zz`, which has no trace. The store returns the
`RESOURCE_DOES_NOT_EXIST` error of the lookup and the state is unchanged, but the error
that `TrackingService.StartTrace` and `TrackingService.EndTrace` report carries
`INTERNAL_ERROR`. -/
theorem startTrace_endTrace_report_internal_error :
    (∃ inner, inner.Code = .RESOURCE_DOES_NOT_EXIST ∧
      TrackingSQLStore.SetTrace exampleEnv "u" "404" 5 [] [] noTrace = (.error inner, noTrace) ∧
      ∃ reported, TrackingService.StartTrace exampleEnv (sqlStore exampleEnv "u")
          { ExperimentId := some "404", TimestampMs := some 5 } noTrace
          = (.error reported, noTrace) ∧
        reported.Code = .INTERNAL_ERROR ∧ reported.Code ≠ inner.Code) ∧
    (∃ inner, inner.Code = .RESOURCE_DOES_NOT_EXIST ∧
      TrackingSQLStore.EndTrace {} "zz" 9 "OK" [] [] noTrace = (.error inner, noTrace) ∧
      ∃ reported, TrackingService.EndTrace exampleEnv (sqlStore exampleEnv "u")
          { RequestId := some "zz", TimestampMs := some 9, Status := some .OK } noTrace
          = (.error reported, noTrace) ∧
        reported.Code = .INTERNAL_ERROR ∧ reported.Code ≠ inner.Code) :=
  ⟨⟨_, rfl, rfl, _, rfl, rfl, by decide⟩, ⟨_, rfl, rfl, _, rfl, rfl, by decide⟩⟩

/-! ## Delete of a tag -/

/-- The message of the does-not-exist error of `GetTraceTag` contains the key and the
`request_id`. -/
theorem getTraceTag_message_contains (requestID key : String) :
    key.data <:+: ("No trace tag with key '" ++ key ++ "' for trace with request_id '"
        ++ requestID ++ "'").data ∧
    requestID.data <:+: ("No trace tag with key '" ++ key ++ "' for trace with request_id '"
        ++ requestID ++ "'").data := by
  constructor
  · exact ⟨"No trace tag with key '".data,
      ("' for trace with request_id '" ++ requestID ++ "'").data,
      by simp [String.data_append]⟩
  · exact ⟨("No trace tag with key '" ++ key ++ "' for trace with request_id '").data,
      "'".data, by simp [String.data_append]⟩

/-- Delete of a tag that has no row: the does-not-exist error of `GetTraceTag`, and the
state as it was. -/
theorem deleteTraceTag_missing (env : Env) (uuid : String) (input : protos.DeleteTraceTag)
    (db : DB)
    (h : db.trace_tags.find?
      (fun r => r.RequestID == input.TraceId.getD "" && r.Key == input.Key.getD "") = none) :
    TrackingService.DeleteTraceTag (sqlStore env uuid) input db
      = (.error (NewError .RESOURCE_DOES_NOT_EXIST
          ("No trace tag with key '" ++ input.Key.getD "" ++ "' for trace with request_id '"
            ++ input.TraceId.getD "" ++ "'")), db) := by
  simp [TrackingService.DeleteTraceTag, sqlStore, TrackingSQLStore.GetTraceTag, h]

/-- Delete of a tag that has a row: success, and the rows under the `(request_id, key)`
are gone. -/
theorem deleteTraceTag_found (env : Env) (uuid : String) (input : protos.DeleteTraceTag)
    (db : DB) (row : models.TraceTag)
    (h : db.trace_tags.find?
      (fun r => r.RequestID == input.TraceId.getD "" && r.Key == input.Key.getD "")
        = some row) :
    TrackingService.DeleteTraceTag (sqlStore env uuid) input db
      = (.ok {}, { db with
          trace_tags := db.trace_tags.filter (fun r =>
            !(r.RequestID == input.TraceId.getD "" && r.Key == input.Key.getD "")) }) := by
  have hrow := List.find?_some h
  simp only [Bool.and_eq_true, beq_iff_eq] at hrow
  simp [TrackingService.DeleteTraceTag, sqlStore, TrackingSQLStore.GetTraceTag, h,
    TrackingSQLStore.DeleteTraceTag, models.TraceTag.ToEntity, hrow.1, hrow.2]

/-- C11: over the SQL store, `TrackingService.DeleteTraceTag` on a `(trace id, key)`
with no tag row fails with a `RESOURCE_DOES_NOT_EXIST` error whose message contains the
key and the trace id, and the store state is unchanged; and after a successful delete
of a key, the repeated delete of the same `(trace id, key)` fails in the same way. -/
theorem deleteTraceTag_fails_on_missing_tag (env : Env) (uuid : String)
    (input : protos.DeleteTraceTag) (db : DB) :
    ((∀ r ∈ db.trace_tags,
        ¬ (r.RequestID = input.TraceId.getD "" ∧ r.Key = input.Key.getD "")) →
      ∃ err, TrackingService.DeleteTraceTag (sqlStore env uuid) input db = (.error err, db) ∧
        err.Code = .RESOURCE_DOES_NOT_EXIST ∧
        (input.Key.getD "").data <:+: err.Message.data ∧
        (input.TraceId.getD "").data <:+: err.Message.data) ∧
    (∀ res db', TrackingService.DeleteTraceTag (sqlStore env uuid) input db = (.ok res, db') →
      ∃ err, TrackingService.DeleteTraceTag (sqlStore env uuid) input db' = (.error err, db') ∧
        err.Code = .RESOURCE_DOES_NOT_EXIST ∧
        (input.Key.getD "").data <:+: err.Message.data ∧
        (input.TraceId.getD "").data <:+: err.Message.data) := by
  have hmissing : ∀ state : DB,
      state.trace_tags.find?
        (fun r => r.RequestID == input.TraceId.getD "" && r.Key == input.Key.getD "") = none →
      ∃ err, TrackingService.DeleteTraceTag (sqlStore env uuid) input state
          = (.error err, state) ∧
        err.Code = .RESOURCE_DOES_NOT_EXIST ∧
        (input.Key.getD "").data <:+: err.Message.data ∧
        (input.TraceId.getD "").data <:+: err.Message.data := by
    intro state hnone
    exact ⟨_, deleteTraceTag_missing env uuid input state hnone, rfl,
      (getTraceTag_message_contains _ _).1, (getTraceTag_message_contains _ _).2⟩
  constructor
  · intro hno
    apply hmissing
    rw [List.find?_eq_none]
    intro r hr
    simpa using hno r hr
  · intro res db' hok
    cases hfind : db.trace_tags.find?
        (fun r => r.RequestID == input.TraceId.getD "" && r.Key == input.Key.getD "") with
    | none =>
      rw [deleteTraceTag_missing env uuid input db hfind] at hok
      simp at hok
    | some row =>
      rw [deleteTraceTag_found env uuid input db row hfind] at hok
      simp only [Prod.mk.injEq] at hok
      obtain ⟨_, hdb⟩ := hok
      subst hdb
      apply hmissing
      rw [List.find?_eq_none]
      intro r hr
      have hkept := (List.mem_filter.1 hr).2
      simp only [Bool.not_eq_true', Bool.and_eq_false_iff, beq_eq_false_iff_ne, ne_eq] at hkept
      simp only [Bool.and_eq_true, beq_iff_eq, not_and]
      intro h1 h2
      rcases hkept with hk | hk
      · exact hk h1
      · exact hk h2

/-- Witness for C11: the trace `a` of `oneTrace` has no tag under the key `k`. -/
theorem deleteTraceTag_fails_on_missing_tag_witness :
    ∃ err, TrackingService.DeleteTraceTag (sqlStore exampleEnv "u")
        { TraceId := some "a", Key := some "k" } oneTrace = (.error err, oneTrace) ∧
      err.Code = .RESOURCE_DOES_NOT_EXIST ∧
      "k".data <:+: err.Message.data ∧ "a".data <:+: err.Message.data :=
  (deleteTraceTag_fails_on_missing_tag exampleEnv "u"
    { TraceId := some "a", Key := some "k" } oneTrace).1 (by decide)

/-! ## Set of a tag -/

/-- An upsert leaves the rows under another primary key as they are. -/
theorem filter_other_upsertTag (rows : List models.TraceTag) (t : models.TraceTag) :
    (upsertTag rows t).filter (fun r => !(r.RequestID == t.RequestID && r.Key == t.Key))
      = rows.filter (fun r => !(r.RequestID == t.RequestID && r.Key == t.Key)) := by
  have hmap : ∀ l : List models.TraceTag,
      (l.map (fun r =>
          if (r.RequestID == t.RequestID && r.Key == t.Key) = true then
            { r with Value := t.Value } else r)).filter
        (fun r => !(r.RequestID == t.RequestID && r.Key == t.Key))
      = l.filter (fun r => !(r.RequestID == t.RequestID && r.Key == t.Key)) := by
    intro l
    induction l with
    | nil => rfl
    | cons x xs ih =>
      by_cases hx : (x.RequestID == t.RequestID && x.Key == t.Key) = true
      · simp only [List.map_cons, hx, if_true, List.filter_cons, Bool.not_true, ih]
        simp
      · simp only [List.map_cons, hx, List.filter_cons, ih]
        simp only [Bool.and_eq_true, beq_iff_eq, not_and] at hx
        simpa using hx
  unfold upsertTag
  split
  · exact hmap rows
  · simp [List.filter_append]

/-- Under the primary key, the rows that match a primary key are none, when no row
matches, or one. -/
theorem filter_match_of_nodup (rows : List models.TraceTag) (requestID key : String)
    (hpk : (rows.map (fun r => (r.RequestID, r.Key))).Nodup)
    (hany : rows.any (fun r => r.RequestID == requestID && r.Key == key) = true) :
    ∃ r, r.RequestID = requestID ∧ r.Key = key ∧
      rows.filter (fun r => r.RequestID == requestID && r.Key == key) = [r] := by
  induction rows with
  | nil => simp at hany
  | cons x xs ih =>
    simp only [List.map_cons, List.nodup_cons] at hpk
    by_cases hx : (x.RequestID == requestID && x.Key == key) = true
    · have hx' := hx
      simp only [Bool.and_eq_true, beq_iff_eq] at hx'
      refine ⟨x, hx'.1, hx'.2, ?_⟩
      have hnone : xs.filter (fun r => r.RequestID == requestID && r.Key == key) = [] := by
        rw [List.filter_eq_nil_iff]
        intro r hr hmatch
        simp only [Bool.and_eq_true, beq_iff_eq] at hmatch
        exact hpk.1 (List.mem_map.2 ⟨r, hr, by simp [hmatch.1, hmatch.2, hx'.1, hx'.2]⟩)
      simp [List.filter_cons, hx, hnone]
    · have hrest : xs.any (fun r => r.RequestID == requestID && r.Key == key) = true := by
        simpa [List.any_cons, hx] using hany
      obtain ⟨r, h1, h2, hr⟩ := ih hpk.2 hrest
      exact ⟨r, h1, h2, by simp [List.filter_cons, hx, hr]⟩

/-- Under the primary key, after an upsert the only row under the primary key of the
written row is that row. -/
theorem filter_match_upsertTag (rows : List models.TraceTag) (t : models.TraceTag)
    (hpk : (rows.map (fun r => (r.RequestID, r.Key))).Nodup) :
    (upsertTag rows t).filter (fun r => r.RequestID == t.RequestID && r.Key == t.Key) = [t] := by
  unfold upsertTag
  split
  · rename_i hany
    obtain ⟨r, h1, h2, hr⟩ := filter_match_of_nodup rows t.RequestID t.Key hpk hany
    have hcomp : ((fun r : models.TraceTag => r.RequestID == t.RequestID && r.Key == t.Key) ∘
        (fun r : models.TraceTag =>
          if (r.RequestID == t.RequestID && r.Key == t.Key) = true then
            { r with Value := t.Value } else r))
        = fun r => r.RequestID == t.RequestID && r.Key == t.Key := by
      funext r
      simp only [Function.comp]
      split <;> rfl
    rw [List.filter_map, hcomp, hr]
    simp only [List.map_cons, List.map_nil, h1, h2, beq_self_eq_true, Bool.and_self, if_true]
  · rename_i hany
    have hnone : rows.filter (fun r => r.RequestID == t.RequestID && r.Key == t.Key) = [] := by
      rw [List.filter_eq_nil_iff]
      intro r hr hmatch
      exact hany (List.any_eq_true.2 ⟨r, hr, hmatch⟩)
    simp [List.filter_append, hnone]

/-- An upsert keeps the primary key of `trace_tags`. -/
theorem nodup_upsertTag (rows : List models.TraceTag) (t : models.TraceTag)
    (hpk : (rows.map (fun r => (r.RequestID, r.Key))).Nodup) :
    ((upsertTag rows t).map (fun r => (r.RequestID, r.Key))).Nodup := by
  unfold upsertTag
  split
  · have hsame : (rows.map (fun r =>
          if (r.RequestID == t.RequestID && r.Key == t.Key) = true then
            { r with Value := t.Value } else r)).map (fun r => (r.RequestID, r.Key))
        = rows.map (fun r => (r.RequestID, r.Key)) := by
      rw [List.map_map]
      congr 1
      funext r
      simp only [Function.comp]
      split <;> rfl
    rw [hsame]
    exact hpk
  · rename_i hany
    rw [List.map_append]
    refine List.Nodup.append hpk (List.nodup_singleton _) ?_
    intro x hx hx'
    simp only [List.map_cons, List.map_nil, List.mem_singleton] at hx'
    subst hx'
    obtain ⟨r, hr, hrx⟩ := List.mem_map.1 hx
    simp only [Prod.mk.injEq] at hrx
    exact hany (List.any_eq_true.2 ⟨r, hr, by simp [hrx.1, hrx.2]⟩)

/-- C12: from every store state that keeps the primary key of `trace_tags`,
`SetTraceTag(id, key, v1)` followed by `SetTraceTag(id, key, v2)` succeeds twice and
leaves exactly one tag row for `(id, key)`, holding `v2`; every tag row with a
different `(request_id, key)` and the other tables are unchanged, and the primary key
is kept. -/
theorem setTraceTag_twice_keeps_latest (requestID key v1 v2 : String) (db : DB)
    (hpk : TagPrimaryKey db) :
    (TrackingSQLStore.SetTraceTag requestID key v1 db).1 = .ok () ∧
    (TrackingSQLStore.SetTraceTag requestID key v2
      (TrackingSQLStore.SetTraceTag requestID key v1 db).2).1 = .ok () ∧
    (TrackingSQLStore.SetTraceTag requestID key v2
        (TrackingSQLStore.SetTraceTag requestID key v1 db).2).2.trace_tags.filter
      (fun r => r.RequestID == requestID && r.Key == key)
      = [{ Key := key, Value := v2, RequestID := requestID }] ∧
    (TrackingSQLStore.SetTraceTag requestID key v2
        (TrackingSQLStore.SetTraceTag requestID key v1 db).2).2.trace_tags.filter
      (fun r => !(r.RequestID == requestID && r.Key == key))
      = db.trace_tags.filter (fun r => !(r.RequestID == requestID && r.Key == key)) ∧
    (TrackingSQLStore.SetTraceTag requestID key v2
      (TrackingSQLStore.SetTraceTag requestID key v1 db).2).2.trace_info = db.trace_info ∧
    (TrackingSQLStore.SetTraceTag requestID key v2
      (TrackingSQLStore.SetTraceTag requestID key v1 db).2).2.trace_request_metadata
      = db.trace_request_metadata ∧
    TagPrimaryKey (TrackingSQLStore.SetTraceTag requestID key v2
      (TrackingSQLStore.SetTraceTag requestID key v1 db).2).2 := by
  unfold TagPrimaryKey at *
  have hpk1 := nodup_upsertTag db.trace_tags
    { Key := key, Value := v1, RequestID := requestID } hpk
  have hpk2 := nodup_upsertTag _ { Key := key, Value := v2, RequestID := requestID } hpk1
  refine ⟨rfl, rfl, ?_, ?_, rfl, rfl, hpk2⟩
  · exact filter_match_upsertTag _ { Key := key, Value := v2, RequestID := requestID } hpk1
  · have h2 := filter_other_upsertTag
      (upsertTag db.trace_tags { Key := key, Value := v1, RequestID := requestID })
      { Key := key, Value := v2, RequestID := requestID }
    have h1 := filter_other_upsertTag db.trace_tags
      { Key := key, Value := v1, RequestID := requestID }
    exact h2.trans h1

/-- Witness for C12: the tag `k` of trace `a` is set to `v1` and then to `v2`. -/
theorem setTraceTag_twice_keeps_latest_witness :
    (TrackingSQLStore.SetTraceTag "a" "k" "v2"
        (TrackingSQLStore.SetTraceTag "a" "k" "v1" oneTrace).2).2.trace_tags
      = [{ Key := "mlflow.artifactLocation", Value := "file:///mlruns/1/traces/a/artifacts",
           RequestID := "a" },
         { Key := "k", Value := "v2", RequestID := "a" }] ∧
    (TrackingSQLStore.SetTraceTag "a" "k" "v2"
        (TrackingSQLStore.SetTraceTag "a" "k" "v1" oneTrace).2).2.trace_tags.filter
      (fun r => r.RequestID == "a" && r.Key == "k")
      = [{ Key := "k", Value := "v2", RequestID := "a" }] :=
  ⟨by decide, (setTraceTag_twice_keeps_latest "a" "k" "v1" "v2" oneTrace
    (by unfold TagPrimaryKey; decide)).2.2.1⟩

/-! ## Status projection -/

/-- C13: both projections are total functions of the internal status string. For every
v3 trace, `TraceInfoV3.ToProto` yields the state `OK`, `ERROR` or `IN_PROGRESS` exactly
when the status is `"OK"`, `"ERROR"` or `"IN_PROGRESS"`, and `STATE_UNSPECIFIED`
exactly for every other string; for every legacy trace, `TraceInfo.ToProto` yields the
status named by the string for the three named values and `TRACE_STATUS_UNSPECIFIED`
exactly for every other string. -/
theorem status_projection_faithful (v3 : entities.TraceInfoV3) (legacy : entities.TraceInfo) :
    ((v3.ToProto.State = some .OK ↔ v3.Status = "OK") ∧
      (v3.ToProto.State = some .ERROR ↔ v3.Status = "ERROR") ∧
      (v3.ToProto.State = some .IN_PROGRESS ↔ v3.Status = "IN_PROGRESS") ∧
      (v3.ToProto.State = some .STATE_UNSPECIFIED ↔
        v3.Status ≠ "OK" ∧ v3.Status ≠ "ERROR" ∧ v3.Status ≠ "IN_PROGRESS")) ∧
    ((legacy.ToProto.Status = some .OK ↔ legacy.Status = "OK") ∧
      (legacy.ToProto.Status = some .ERROR ↔ legacy.Status = "ERROR") ∧
      (legacy.ToProto.Status = some .IN_PROGRESS ↔ legacy.Status = "IN_PROGRESS") ∧
      (legacy.ToProto.Status = some .TRACE_STATUS_UNSPECIFIED ↔
        legacy.Status ≠ "OK" ∧ legacy.Status ≠ "ERROR" ∧ legacy.Status ≠ "IN_PROGRESS")) := by
  have h1 : ("OK" : String) ≠ "ERROR" := by decide
  have h2 : ("OK" : String) ≠ "IN_PROGRESS" := by decide
  have h3 : ("ERROR" : String) ≠ "IN_PROGRESS" := by decide
  constructor
  · simp only [entities.TraceInfoV3.ToProto, entities.TraceInfoV3.state,
      protos.TraceInfoV3_State.String, Option.some.injEq]
    by_cases hok : v3.Status = "OK"
    · simp [hok, h1, h2]
    · by_cases herr : v3.Status = "ERROR"
      · simp [herr, h3, h1.symm]
      · by_cases hip : v3.Status = "IN_PROGRESS"
        · simp [hip, h2.symm, h3.symm]
        · simp [hok, herr, hip]
  · simp only [entities.TraceInfo.ToProto, protos.TraceStatus_value,
      models.TraceInfoStatusOk, models.TraceInfoStatusError, models.TraceInfoStatusInProgress,
      Option.some.injEq]
    by_cases hok : legacy.Status = "OK"
    · simp [hok, h1, h2]
    · by_cases herr : legacy.Status = "ERROR"
      · simp [herr, h3, h1.symm]
      · by_cases hip : legacy.Status = "IN_PROGRESS"
        · simp [hip, h2.symm, h3.symm]
        · simp [hok, herr, hip]

/-! ## Start: repeated keys -/

/-- The metadata of the trace that a successful `SetTrace` returns. -/
theorem SetTrace_returned_metadata (env : Env) (uuid experimentID : String)
    (timestampMS : Int) (metadata : List entities.TraceRequestMetadata)
    (tags : List entities.TraceTag) (db db' : DB) (ti : entities.TraceInfo)
    (h : TrackingSQLStore.SetTrace env uuid experimentID timestampMS metadata tags db
      = (.ok ti, db')) :
    ti.TraceRequestMetadata
      = metadata.map (fun m => { Key := m.Key, Value := m.Value, RequestID := ti.RequestID }) := by
  obtain ⟨experiment, location, traceInfo, created, he, hl, hb, hrid, _, _, hc, hti⟩ :=
    SetTrace_ok env uuid experimentID timestampMS metadata tags db db' ti h
  obtain ⟨_, hcreated, _⟩ := Create_some db db' traceInfo created hc
  have hmd : traceInfo.TraceRequestMetadata
      = metadata.map (models.NewTraceRequestMetadataFromEntity traceInfo.RequestID) := by
    simp only [TrackingSQLStore.SetTrace.build, he, GetTraceArtifactLocationTag, hl,
      Except.ok.injEq] at hb
    subst hb
    rfl
  subst hti hcreated
  simp [models.TraceInfo.ToEntity, hmd, models.TraceRequestMetadata.ToEntity,
    models.NewTraceRequestMetadataFromEntity, Function.comp_def]

/-- The metadata of the trace that a successful `SetTraceV3` returns. -/
theorem SetTraceV3_returned_metadata (env : Env) (traceInfoV3 : entities.TraceInfoV3)
    (metadata : List entities.TraceRequestMetadata) (tags : List entities.TraceTag)
    (db db' : DB) (ti : entities.TraceInfoV3)
    (h : TrackingSQLStore.SetTraceV3 env traceInfoV3 metadata tags db = some (.ok ti, db')) :
    ti.TraceRequestMetadata
      = metadata.map (fun m => { Key := m.Key, Value := m.Value, RequestID := ti.RequestID }) := by
  unfold TrackingSQLStore.SetTraceV3 at h
  cases hb : TrackingSQLStore.SetTraceV3.build env db traceInfoV3 metadata tags with
  | none => simp [hb] at h
  | some built =>
    cases built with
    | error err => simp [hb] at h
    | ok traceInfo =>
      simp only [hb] at h
      cases hc : Create db traceInfo with
      | none => simp [hc] at h
      | some res =>
        obtain ⟨db1, created⟩ := res
        simp only [hc, Option.some.injEq, Prod.mk.injEq, Except.ok.injEq] at h
        obtain ⟨hti, _⟩ := h
        obtain ⟨_, hcreated, _⟩ := Create_some db db1 traceInfo created hc
        have hmd : traceInfo.TraceRequestMetadata
            = metadata.map (models.NewTraceRequestMetadataFromEntity traceInfo.RequestID) := by
          unfold TrackingSQLStore.SetTraceV3.build at hb
          cases he : GetExperiment db traceInfoV3.ExperimentID with
          | error err => simp [he] at hb
          | ok experiment =>
            simp only [he] at hb
            split at hb
            · cases hl : env.artifactLocation experiment
                  (TrackingSQLStore.SetTraceV3.tagLoop traceInfoV3.RequestID tags
                    traceInfoV3.RequestID []).1 with
              | none => simp [GetTraceArtifactLocationTag, hl] at hb
              | some location =>
                simp only [GetTraceArtifactLocationTag, hl, Option.some.injEq,
                  Except.ok.injEq] at hb
                subst hb
                rfl
            · simp at hb
        subst hti hcreated
        simp [models.TraceInfo.ToTraceInfoV3Entity, hmd, models.TraceRequestMetadata.ToEntity,
          models.NewTraceRequestMetadataFromEntity, Function.comp_def]

/-! ## The primary key of `trace_tags` along the operations -/

/-- Writing a child row keeps the primary key of `trace_tags`. -/
theorem nodup_insertTagIfAbsent (rows : List models.TraceTag) (t : models.TraceTag)
    (hpk : (rows.map (fun r => (r.RequestID, r.Key))).Nodup) :
    ((insertTagIfAbsent rows t).map (fun r => (r.RequestID, r.Key))).Nodup := by
  unfold insertTagIfAbsent
  split
  · exact hpk
  · rename_i hany
    rw [List.map_append]
    refine List.Nodup.append hpk (List.nodup_singleton _) ?_
    intro x hx hx'
    simp only [List.map_cons, List.map_nil, List.mem_singleton] at hx'
    subst hx'
    obtain ⟨r, hr, hrx⟩ := List.mem_map.1 hx
    simp only [Prod.mk.injEq] at hrx
    exact hany (List.any_eq_true.2 ⟨r, hr, by simp [hrx.1, hrx.2]⟩)

/-- Writing child rows one after the other keeps the primary key of `trace_tags`. -/
theorem nodup_foldl_insertTagIfAbsent (written rows : List models.TraceTag)
    (hpk : (rows.map (fun r => (r.RequestID, r.Key))).Nodup) :
    ((written.foldl insertTagIfAbsent rows).map (fun r => (r.RequestID, r.Key))).Nodup := by
  induction written generalizing rows with
  | nil => exact hpk
  | cons t rest ih => exact ih _ (nodup_insertTagIfAbsent rows t hpk)

/-- Upserts one after the other keep the primary key of `trace_tags`. -/
theorem nodup_foldl_upsertTag (written rows : List models.TraceTag)
    (hpk : (rows.map (fun r => (r.RequestID, r.Key))).Nodup) :
    ((written.foldl upsertTag rows).map (fun r => (r.RequestID, r.Key))).Nodup := by
  induction written generalizing rows with
  | nil => exact hpk
  | cons t rest ih => exact ih _ (nodup_upsertTag rows t hpk)

/-- Every operation keeps the primary key of `trace_tags`. -/
theorem tagPrimaryKey_run (env : Env) (op : Op) (db : DB) (hpk : TagPrimaryKey db) :
    TagPrimaryKey (op.run env db) := by
  unfold TagPrimaryKey at *
  cases op with
  | start uuid experimentID timestampMS metadata tags =>
    simp only [Op.run, TrackingSQLStore.SetTrace]
    cases TrackingSQLStore.SetTrace.build env uuid db experimentID timestampMS metadata tags with
    | error err => exact hpk
    | ok traceInfo =>
      cases hc : Create db traceInfo with
      | none => simpa only [hc] using hpk
      | some res =>
        obtain ⟨db1, created⟩ := res
        obtain ⟨_, _, _, _, hrows⟩ := Create_some db db1 traceInfo created hc
        simp only [hc, hrows]
        exact nodup_foldl_insertTagIfAbsent _ _ hpk
  | endTrace requestID timestampMS status metadata tags =>
    simp only [Op.run, TrackingSQLStore.EndTrace, TrackingSQLStore.GetTraceInfo]
    cases hrow : db.trace_info.find? (fun r => r.RequestID == requestID) with
    | none => exact hpk
    | some row =>
      simp only [models.TraceInfo.ToEntity]
      split <;>
        exact nodup_foldl_upsertTag _ _ hpk
  | setTag requestID key value => exact nodup_upsertTag _ _ hpk
  | deleteTag traceID key =>
    simp only [Op.run, TrackingSQLStore.GetTraceTag]
    split <;> rename_i heq <;> split at heq <;> simp at heq <;> obtain ⟨_, rfl⟩ := heq
    · exact List.Nodup.sublist ((List.filter_sublist _).map _) hpk
    · exact hpk
  | purge experimentID maxTimestampMillis maxTraces requestIDs =>
    simp only [Op.run, TrackingSQLStore.DeleteTraces, TrackingSQLStore.cascadeDelete]
    exact List.Nodup.sublist ((List.filter_sublist _).map _) hpk

/-! ## Rows written by the ORM: insert unless the primary key is present

The four facts below are stated once for any insert `ins` that leaves the table as it
is when a row under the primary key `pk` of the new row is present, and appends the new
row otherwise; `insertTagIfAbsent` and `insertMetadataIfAbsent` are such inserts. -/

section InsertIfAbsent

variable {α : Type} (pk : α → String × String) (ins : List α → α → List α)

/-- A row of the table after the writes is an old row or one of the rows written. -/
theorem mem_foldl_insert
    (hins : ∀ rows t, ins rows t = if rows.any (fun r => pk r == pk t) then rows else rows ++ [t])
    (written base : List α) (r : α) (h : r ∈ written.foldl ins base) :
    r ∈ base ∨ r ∈ written := by
  induction written generalizing base with
  | nil => exact Or.inl (by simpa using h)
  | cons row rest ih =>
    simp only [List.foldl_cons] at h
    rcases ih _ h with hb | hr
    · rw [hins] at hb
      split at hb
      · exact Or.inl hb
      · rcases List.mem_append.1 hb with hb | hb
        · exact Or.inl hb
        · exact Or.inr (by simp at hb; simp [hb])
    · exact Or.inr (by simp [hr])

/-- The writes keep every old row. -/
theorem mem_foldl_insert_of_mem
    (hins : ∀ rows t, ins rows t = if rows.any (fun r => pk r == pk t) then rows else rows ++ [t])
    (written base : List α) (r : α) (h : r ∈ base) : r ∈ written.foldl ins base := by
  induction written generalizing base with
  | nil => simpa using h
  | cons row rest ih =>
    simp only [List.foldl_cons]
    apply ih
    rw [hins]
    split
    · exact h
    · exact List.mem_append_left _ h

/-- The writes keep the primary key. -/
theorem nodup_foldl_insert
    (hins : ∀ rows t, ins rows t = if rows.any (fun r => pk r == pk t) then rows else rows ++ [t])
    (written base : List α) (hpk : (base.map pk).Nodup) :
    ((written.foldl ins base).map pk).Nodup := by
  induction written generalizing base with
  | nil => exact hpk
  | cons t rest ih =>
    simp only [List.foldl_cons]
    apply ih
    rw [hins]
    split
    · exact hpk
    · rename_i hany
      rw [List.map_append]
      refine List.Nodup.append hpk (List.nodup_singleton _) ?_
      intro x hx hx'
      simp only [List.map_cons, List.map_nil, List.mem_singleton] at hx'
      subst hx'
      obtain ⟨r, hr, hrx⟩ := List.mem_map.1 hx
      exact hany (List.any_eq_true.2 ⟨r, hr, by simp [hrx]⟩)

/-- A written row is in the table after the writes when no old row and no row written
before it has its primary key. -/
theorem first_mem_foldl_insert
    (hins : ∀ rows t, ins rows t = if rows.any (fun r => pk r == pk t) then rows else rows ++ [t])
    (before after base : List α) (x : α)
    (hbase : ∀ r ∈ base, pk r ≠ pk x) (hbefore : ∀ r ∈ before, pk r ≠ pk x) :
    x ∈ (before ++ x :: after).foldl ins base := by
  rw [List.foldl_append, List.foldl_cons]
  apply mem_foldl_insert_of_mem pk ins hins
  rw [hins]
  have hnone : ¬ (before.foldl ins base).any (fun r => pk r == pk x) = true := by
    intro hany
    obtain ⟨r, hr, hrx⟩ := List.any_eq_true.1 hany
    have hrx' : pk r = pk x := by simpa using hrx
    rcases mem_foldl_insert pk ins hins before base r hr with hb | hb
    · exact hbase r hb hrx'
    · exact hbefore r hb hrx'
  simp [hnone]

end InsertIfAbsent

/-- `insertTagIfAbsent` is an insert unless the primary key is present. -/
theorem insertTagIfAbsent_eq (rows : List models.TraceTag) (t : models.TraceTag) :
    insertTagIfAbsent rows t
      = if rows.any (fun r => (r.RequestID, r.Key) == (t.RequestID, t.Key)) then rows
        else rows ++ [t] := by
  unfold insertTagIfAbsent
  rfl

/-- `insertMetadataIfAbsent` is an insert unless the primary key is present. -/
theorem insertMetadataIfAbsent_eq (rows : List models.TraceRequestMetadata)
    (m : models.TraceRequestMetadata) :
    insertMetadataIfAbsent rows m
      = if rows.any (fun r => (r.RequestID, r.Key) == (m.RequestID, m.Key)) then rows
        else rows ++ [m] := by
  unfold insertMetadataIfAbsent
  rfl

/-- The metadata rows that a successful `Create` writes. -/
theorem Create_some_metadata (db db' : DB) (ti created : models.TraceInfo)
    (h : Create db ti = some (db', created)) :
    db'.trace_request_metadata
      = (ti.TraceRequestMetadata.map (fun m => { m with RequestID := ti.RequestID })).foldl
          insertMetadataIfAbsent db.trace_request_metadata := by
  unfold Create at h
  split at h
  · simp at h
  · simp only [Option.some.injEq, Prod.mk.injEq] at h
    obtain ⟨hdb, _⟩ := h
    subst hdb
    rfl

/-- A successful `SetTraceV3` went through `Create`. -/
theorem SetTraceV3_ok (env : Env) (traceInfoV3 : entities.TraceInfoV3)
    (metadata : List entities.TraceRequestMetadata) (tags : List entities.TraceTag)
    (db db' : DB) (ti : entities.TraceInfoV3)
    (h : TrackingSQLStore.SetTraceV3 env traceInfoV3 metadata tags db = some (.ok ti, db')) :
    ∃ traceInfo created, Create db traceInfo = some (db', created) ∧
      ti = created.ToTraceInfoV3Entity := by
  unfold TrackingSQLStore.SetTraceV3 at h
  cases hb : TrackingSQLStore.SetTraceV3.build env db traceInfoV3 metadata tags with
  | none => simp [hb] at h
  | some built =>
    cases built with
    | error err => simp [hb] at h
    | ok traceInfo =>
      simp only [hb] at h
      cases hc : Create db traceInfo with
      | none => simp [hc] at h
      | some res =>
        obtain ⟨db1, created⟩ := res
        simp only [hc, Option.some.injEq, Prod.mk.injEq, Except.ok.injEq] at h
        obtain ⟨hti, hdb⟩ := h
        subst hdb
        exact ⟨traceInfo, created, hc, hti.symm⟩

/-- The metadata rows and the trace row that a `Create` writes, against the struct it
returns. -/
theorem Create_written (db db' : DB) (traceInfo created : models.TraceInfo)
    (hc : Create db traceInfo = some (db', created)) :
    db'.trace_request_metadata
      = created.TraceRequestMetadata.foldl insertMetadataIfAbsent db.trace_request_metadata ∧
    ∃ row, db'.trace_info = db.trace_info ++ [row] ∧ row.RequestID = created.RequestID := by
  obtain ⟨_, hcreated, _, hinfo, _⟩ := Create_some db db' traceInfo created hc
  have hmd := Create_some_metadata db db' traceInfo created hc
  subst hcreated
  exact ⟨hmd, _, hinfo, rfl⟩

/-- The metadata rows and the trace row that a successful `SetTrace` writes. -/
theorem SetTrace_written (env : Env) (uuid experimentID : String) (timestampMS : Int)
    (metadata : List entities.TraceRequestMetadata) (tags : List entities.TraceTag)
    (db db' : DB) (ti : entities.TraceInfo)
    (h : TrackingSQLStore.SetTrace env uuid experimentID timestampMS metadata tags db
      = (.ok ti, db')) :
    db'.trace_request_metadata = (ti.TraceRequestMetadata.map
        (fun m => ({ Key := m.Key, Value := m.Value, RequestID := m.RequestID } :
          models.TraceRequestMetadata))).foldl insertMetadataIfAbsent
        db.trace_request_metadata ∧
    ∃ row, db'.trace_info = db.trace_info ++ [row] ∧ row.RequestID = ti.RequestID := by
  obtain ⟨_, _, traceInfo, created, _, _, _, _, _, _, hc, hti⟩ :=
    SetTrace_ok env uuid experimentID timestampMS metadata tags db db' ti h
  obtain ⟨hmd, row, hinfo, hrid⟩ := Create_written db db' traceInfo created hc
  subst hti
  refine ⟨?_, row, hinfo, hrid⟩
  rw [hmd]
  simp [models.TraceInfo.ToEntity, models.TraceRequestMetadata.ToEntity, Function.comp_def]

/-- The metadata rows and the trace row that a successful `SetTraceV3` writes. -/
theorem SetTraceV3_written (env : Env) (traceInfoV3 : entities.TraceInfoV3)
    (metadata : List entities.TraceRequestMetadata) (tags : List entities.TraceTag)
    (db db' : DB) (ti : entities.TraceInfoV3)
    (h : TrackingSQLStore.SetTraceV3 env traceInfoV3 metadata tags db = some (.ok ti, db')) :
    db'.trace_request_metadata = (ti.TraceRequestMetadata.map
        (fun m => ({ Key := m.Key, Value := m.Value, RequestID := m.RequestID } :
          models.TraceRequestMetadata))).foldl insertMetadataIfAbsent
        db.trace_request_metadata ∧
    ∃ row, db'.trace_info = db.trace_info ++ [row] ∧ row.RequestID = ti.RequestID := by
  obtain ⟨traceInfo, created, hc, hti⟩ :=
    SetTraceV3_ok env traceInfoV3 metadata tags db db' ti h
  obtain ⟨hmd, row, hinfo, hrid⟩ := Create_written db db' traceInfo created hc
  subst hti
  refine ⟨?_, row, hinfo, hrid⟩
  rw [hmd]
  simp [models.TraceInfo.ToTraceInfoV3Entity, models.TraceRequestMetadata.ToEntity,
    Function.comp_def]

/-- Under the primary key, the rows of one trace have pairwise distinct keys. -/
theorem nodup_keys_of_trace (pairs : List (String × String)) (requestID : String)
    (hpk : pairs.Nodup) :
    ((pairs.filter (fun p => p.1 == requestID)).map (fun p => p.2)).Nodup := by
  refine List.Nodup.map_on ?_ (hpk.filter _)
  intro x hx y hy hxy
  have hx1 : x.1 = requestID := by simpa using (List.mem_filter.1 hx).2
  have hy1 : y.1 = requestID := by simpa using (List.mem_filter.1 hy).2
  exact Prod.ext (hx1.trans hy1.symm) hxy

/-! ## What a successful start returns and writes, in one statement -/

/-- A successful `SetTrace` has the shape `StartShape`. -/
theorem SetTrace_shape (env : Env) (uuid experimentID : String) (timestampMS : Int)
    (metadata : List entities.TraceRequestMetadata) (tags : List entities.TraceTag)
    (db db' : DB) (ti : entities.TraceInfo)
    (h : TrackingSQLStore.SetTrace env uuid experimentID timestampMS metadata tags db
      = (.ok ti, db')) :
    ∃ location, StartShape env.artifactLocationKey location tags metadata db db' ti.RequestID
      ti.Tags ti.TraceRequestMetadata := by
  obtain ⟨_, _, _, location, _, _, htags, hrows⟩ :=
    SetTrace_returned env uuid experimentID timestampMS metadata tags db db' ti h
  have hmd := SetTrace_returned_metadata env uuid experimentID timestampMS metadata tags db db'
    ti h
  obtain ⟨hmdrows, htrace⟩ :=
    SetTrace_written env uuid experimentID timestampMS metadata tags db db' ti h
  refine ⟨location, htags, hmd, ?_, ?_, htrace⟩
  · rw [hrows, htags]
    simp [Function.comp_def]
  · rw [hmdrows, hmd]
    simp [Function.comp_def]

/-- A successful `SetTraceV3` has the shape `StartShape`. -/
theorem SetTraceV3_shape (env : Env) (traceInfoV3 : entities.TraceInfoV3)
    (metadata : List entities.TraceRequestMetadata) (tags : List entities.TraceTag)
    (db db' : DB) (ti : entities.TraceInfoV3)
    (h : TrackingSQLStore.SetTraceV3 env traceInfoV3 metadata tags db = some (.ok ti, db')) :
    ∃ location, StartShape env.artifactLocationKey location tags metadata db db' ti.RequestID
      ti.Tags ti.TraceRequestMetadata := by
  obtain ⟨_, _, _, location, _, _, htags, hrows⟩ :=
    SetTraceV3_returned env traceInfoV3 metadata tags db db' ti h
  have hmd := SetTraceV3_returned_metadata env traceInfoV3 metadata tags db db' ti h
  obtain ⟨hmdrows, htrace⟩ := SetTraceV3_written env traceInfoV3 metadata tags db db' ti h
  refine ⟨location, htags, hmd, ?_, ?_, htrace⟩
  · rw [hrows, htags]
    simp [Function.comp_def]
  · rw [hmdrows, hmd]
    simp [Function.comp_def]

/-- A caller tag that is the first with its key is stored with its value, when the
store held no row under the `request_id` and the key before. -/
theorem first_tag_stored (artifactLocationKey location : String)
    (tags : List entities.TraceTag) (metadata : List entities.TraceRequestMetadata)
    (db db' : DB) (requestID : String) (returnedTags : List entities.TraceTag)
    (returnedMetadata : List entities.TraceRequestMetadata)
    (hshape : StartShape artifactLocationKey location tags metadata db db' requestID
      returnedTags returnedMetadata)
    (pre post : List entities.TraceTag) (t : entities.TraceTag)
    (hsplit : tags = pre ++ t :: post) (hk : t.Key ≠ mockRequestIDTagKey)
    (hfirst : ∀ u ∈ pre, u.Key ≠ t.Key)
    (hfresh : ∀ r ∈ db.trace_tags, ¬ (r.RequestID = requestID ∧ r.Key = t.Key)) :
    ({ Key := t.Key, Value := t.Value, RequestID := requestID } : models.TraceTag)
      ∈ db'.trace_tags := by
  obtain ⟨_, _, hrows, _, _⟩ := hshape
  rw [hrows, hsplit]
  have hfilter : (pre ++ t :: post).filter (fun t => decide (t.Key ≠ mockRequestIDTagKey))
      = pre.filter (fun t => decide (t.Key ≠ mockRequestIDTagKey))
        ++ t :: post.filter (fun t => decide (t.Key ≠ mockRequestIDTagKey)) := by
    simp [List.filter_append, List.filter_cons, hk]
  rw [hfilter, List.map_append, List.map_cons, List.append_assoc, List.cons_append]
  apply first_mem_foldl_insert (fun r : models.TraceTag => (r.RequestID, r.Key))
    insertTagIfAbsent insertTagIfAbsent_eq
  · intro r hr heq
    simp only [Prod.mk.injEq] at heq
    exact hfresh r hr heq
  · intro r hr heq
    obtain ⟨u, hu, rfl⟩ := List.mem_map.1 hr
    simp only [Prod.mk.injEq, true_and] at heq
    exact hfirst u (List.mem_filter.1 hu).1 heq

/-- A caller metadata entry that is the first with its key is stored with its value,
when the store held no row under the `request_id` and the key before. -/
theorem first_metadata_stored (artifactLocationKey location : String)
    (tags : List entities.TraceTag) (metadata : List entities.TraceRequestMetadata)
    (db db' : DB) (requestID : String) (returnedTags : List entities.TraceTag)
    (returnedMetadata : List entities.TraceRequestMetadata)
    (hshape : StartShape artifactLocationKey location tags metadata db db' requestID
      returnedTags returnedMetadata)
    (pre post : List entities.TraceRequestMetadata) (m : entities.TraceRequestMetadata)
    (hsplit : metadata = pre ++ m :: post) (hfirst : ∀ u ∈ pre, u.Key ≠ m.Key)
    (hfresh : ∀ r ∈ db.trace_request_metadata, ¬ (r.RequestID = requestID ∧ r.Key = m.Key)) :
    ({ Key := m.Key, Value := m.Value, RequestID := requestID } : models.TraceRequestMetadata)
      ∈ db'.trace_request_metadata := by
  obtain ⟨_, _, _, hmdrows, _⟩ := hshape
  rw [hmdrows, hsplit, List.map_append, List.map_cons]
  apply first_mem_foldl_insert (fun r : models.TraceRequestMetadata => (r.RequestID, r.Key))
    insertMetadataIfAbsent insertMetadataIfAbsent_eq
  · intro r hr heq
    simp only [Prod.mk.injEq] at heq
    exact hfresh r hr heq
  · intro r hr heq
    obtain ⟨u, hu, rfl⟩ := List.mem_map.1 hr
    simp only [Prod.mk.injEq, true_and] at heq
    exact hfirst u hu heq

/-- The rows of one trace have pairwise distinct keys under the primary key of
`trace_tags`. -/
theorem nodup_tag_keys_of_trace (db : DB) (requestID : String) (hpk : TagPrimaryKey db) :
    ((db.trace_tags.filter (fun r => r.RequestID == requestID)).map (fun r => r.Key)).Nodup := by
  have h := nodup_keys_of_trace
    (db.trace_tags.map (fun r : models.TraceTag => (r.RequestID, r.Key))) requestID hpk
  simpa [List.filter_map, Function.comp_def] using h

/-- The rows of one trace have pairwise distinct keys under the primary key of
`trace_request_metadata`. -/
theorem nodup_metadata_keys_of_trace (db : DB) (requestID : String)
    (hpk : MetadataPrimaryKey db) :
    ((db.trace_request_metadata.filter (fun r => r.RequestID == requestID)).map
      (fun r => r.Key)).Nodup := by
  have h := nodup_keys_of_trace
    (db.trace_request_metadata.map
      (fun r : models.TraceRequestMetadata => (r.RequestID, r.Key))) requestID hpk
  simpa [List.filter_map, Function.comp_def] using h

/-- A start keeps the primary keys of the two child tables. -/
theorem primaryKeys_of_shape (artifactLocationKey location : String)
    (tags : List entities.TraceTag) (metadata : List entities.TraceRequestMetadata)
    (db db' : DB) (requestID : String) (returnedTags : List entities.TraceTag)
    (returnedMetadata : List entities.TraceRequestMetadata)
    (hshape : StartShape artifactLocationKey location tags metadata db db' requestID
      returnedTags returnedMetadata) :
    (TagPrimaryKey db → TagPrimaryKey db') ∧ (MetadataPrimaryKey db → MetadataPrimaryKey db') := by
  obtain ⟨_, _, hrows, hmdrows, _⟩ := hshape
  constructor
  · intro hpk
    unfold TagPrimaryKey at *
    rw [hrows]
    exact nodup_foldl_insert (fun r : models.TraceTag => (r.RequestID, r.Key))
      insertTagIfAbsent insertTagIfAbsent_eq _ _ hpk
  · intro hpk
    unfold MetadataPrimaryKey at *
    rw [hmdrows]
    exact nodup_foldl_insert (fun r : models.TraceRequestMetadata => (r.RequestID, r.Key))
      insertMetadataIfAbsent insertMetadataIfAbsent_eq _ _ hpk

/-- The outcome of a start with an override tag, from its shape. -/
theorem overrideOutcome_of_shape (artifactLocationKey location : String)
    (hkey : artifactLocationKey ≠ mockRequestIDTagKey) (tags : List entities.TraceTag)
    (metadata : List entities.TraceRequestMetadata)
    (hov : ∃ t ∈ tags, t.Key = mockRequestIDTagKey) (db db' : DB) (requestID : String)
    (returnedTags : List entities.TraceTag)
    (returnedMetadata : List entities.TraceRequestMetadata)
    (hrid : ∀ pre t post, tags = pre ++ t :: post → t.Key = mockRequestIDTagKey →
      (∀ u ∈ post, u.Key ≠ mockRequestIDTagKey) → requestID = t.Value)
    (hshape : StartShape artifactLocationKey location tags metadata db db' requestID
      returnedTags returnedMetadata) :
    OverrideOutcome tags db db' requestID returnedTags := by
  have hshape' := hshape
  obtain ⟨htags, _, hrows, _, _⟩ := hshape'
  have hwritten : ∀ r ∈ List.map (fun t : entities.TraceTag =>
        ({ Key := t.Key, Value := t.Value, RequestID := requestID } : models.TraceTag))
        (tags.filter (fun t => decide (t.Key ≠ mockRequestIDTagKey)))
      ++ [({ Key := artifactLocationKey, Value := location, RequestID := requestID } :
          models.TraceTag)],
      r.Key ≠ mockRequestIDTagKey ∧ r.RequestID = requestID := by
    intro r hr
    rcases List.mem_append.1 hr with hr | hr
    · obtain ⟨u, hu, rfl⟩ := List.mem_map.1 hr
      exact ⟨by simpa using (List.mem_filter.1 hu).2, rfl⟩
    · simp only [List.mem_singleton] at hr
      subst hr
      exact ⟨hkey, rfl⟩
  refine ⟨?_, ?_, ?_, ?_, ?_⟩
  · obtain ⟨pre, t, post, hsplit, ht, hpost⟩ := exists_last_override tags hov
    exact ⟨pre, t, post, hsplit, ht, hpost, hrid pre t post hsplit ht hpost⟩
  · intro t ht
    rw [htags] at ht
    rcases List.mem_append.1 ht with ht | ht
    · obtain ⟨u, hu, rfl⟩ := List.mem_map.1 ht
      simpa using (List.mem_filter.1 hu).2
    · simp only [List.mem_singleton] at ht
      subst ht
      exact hkey
  · intro r hr hnew
    rw [hrows] at hr
    rcases mem_foldl_insertTagIfAbsent _ _ r hr with hold | hrow
    · exact absurd hold hnew
    · exact hwritten r hrow
  · intro t ht hk
    constructor
    · rw [htags]
      exact List.mem_append_left _
        (List.mem_map.2 ⟨t, List.mem_filter.2 ⟨ht, by simpa using hk⟩, rfl⟩)
    · rw [hrows]
      exact key_mem_foldl_insertTagIfAbsent_of_mem _ _
        { Key := t.Key, Value := t.Value, RequestID := requestID }
        (List.mem_append_left _
          (List.mem_map.2 ⟨t, List.mem_filter.2 ⟨ht, by simpa using hk⟩, rfl⟩))
  · intro pre t post hsplit hk hfirst hfresh
    exact first_tag_stored artifactLocationKey location tags metadata db db' requestID
      returnedTags returnedMetadata hshape pre post t hsplit hk hfirst hfresh

/-- The outcome of a start for repeated keys, from its shape. -/
theorem repeatedKeysOutcome_of_shape (artifactLocationKey location : String)
    (tags : List entities.TraceTag) (metadata : List entities.TraceRequestMetadata)
    (db db' : DB) (requestID : String) (returnedTags : List entities.TraceTag)
    (returnedMetadata : List entities.TraceRequestMetadata)
    (hshape : StartShape artifactLocationKey location tags metadata db db' requestID
      returnedTags returnedMetadata) :
    RepeatedKeysOutcome artifactLocationKey tags metadata db db' requestID returnedTags
      returnedMetadata := by
  obtain ⟨hpkt, hpkm⟩ := primaryKeys_of_shape artifactLocationKey location tags metadata db db'
    requestID returnedTags returnedMetadata hshape
  refine ⟨⟨location, hshape.1⟩, hshape.2.1, ?_, ?_, ?_, ?_⟩
  · intro hpk
    exact ⟨hpkt hpk, nodup_tag_keys_of_trace db' requestID (hpkt hpk)⟩
  · intro hpk
    exact ⟨hpkm hpk, nodup_metadata_keys_of_trace db' requestID (hpkm hpk)⟩
  · intro pre t post hsplit hk hfirst hfresh
    have hmem := first_tag_stored artifactLocationKey location tags metadata db db' requestID
      returnedTags returnedMetadata hshape pre post t hsplit hk hfirst hfresh
    refine ⟨hmem, fun hpk r hr h1 h2 => ?_⟩
    have hpk' := hpkt hpk
    unfold TagPrimaryKey at hpk'
    have heq := List.inj_on_of_nodup_map hpk' hr hmem (by simp [h1, h2])
    rw [heq]
  · intro pre m post hsplit hfirst hfresh
    have hmem := first_metadata_stored artifactLocationKey location tags metadata db db'
      requestID returnedTags returnedMetadata hshape pre post m hsplit hfirst hfresh
    refine ⟨hmem, fun hpk r hr h1 h2 => ?_⟩
    have hpk' := hpkm hpk
    unfold MetadataPrimaryKey at hpk'
    have heq := List.inj_on_of_nodup_map hpk' hr hmem (by simp [h1, h2])
    rw [heq]

/-- The rows of a started trace carry its `request_id`, from its shape. -/
theorem rowsCarryRequestID_of_shape (artifactLocationKey location : String)
    (tags : List entities.TraceTag) (metadata : List entities.TraceRequestMetadata)
    (db db' : DB) (requestID : String) (returnedTags : List entities.TraceTag)
    (returnedMetadata : List entities.TraceRequestMetadata)
    (hshape : StartShape artifactLocationKey location tags metadata db db' requestID
      returnedTags returnedMetadata) :
    RowsCarryRequestID db db' requestID returnedTags returnedMetadata := by
  obtain ⟨htags, hmd, hrows, hmdrows, htrace⟩ := hshape
  refine ⟨htrace, ?_, ?_, ?_, ?_⟩
  · intro t ht
    rw [htags] at ht
    rcases List.mem_append.1 ht with ht | ht
    · obtain ⟨u, _, rfl⟩ := List.mem_map.1 ht
      rfl
    · simp only [List.mem_singleton] at ht
      subst ht
      rfl
  · intro m hm
    rw [hmd] at hm
    obtain ⟨u, _, rfl⟩ := List.mem_map.1 hm
    rfl
  · intro r hr hnew
    rw [hrows] at hr
    rcases mem_foldl_insert (fun r : models.TraceTag => (r.RequestID, r.Key))
        insertTagIfAbsent insertTagIfAbsent_eq _ _ r hr with hold | hrow
    · exact absurd hold hnew
    · rcases List.mem_append.1 hrow with hrow | hrow
      · obtain ⟨u, _, rfl⟩ := List.mem_map.1 hrow
        rfl
      · simp only [List.mem_singleton] at hrow
        subst hrow
        rfl
  · intro r hr hnew
    rw [hmdrows] at hr
    rcases mem_foldl_insert (fun r : models.TraceRequestMetadata => (r.RequestID, r.Key))
        insertMetadataIfAbsent insertMetadataIfAbsent_eq _ _ r hr with hold | hrow
    · exact absurd hold hnew
    · obtain ⟨u, _, rfl⟩ := List.mem_map.1 hrow
      rfl

/-! ## Start: the override of the `request_id` -/

/-- C7 (as amended): for every successful `SetTrace` and every successful `SetTraceV3`
whose caller tags hold a tag under the reserved key
`mock.generate_request_id.go.testing.tag` (the artifact-location key being another key),
the `request_id` of the resulting trace is the value of that tag (of the last one, if
the caller repeats the key); no tag of the returned trace and no tag row written is
under the reserved key; every other caller tag is among the returned tags and the trace
has a tag row under its key; and such a tag is stored with its own value when it is the
first caller tag with its key and the store held no row under the `request_id` and that
key before (the write keeps the first row under a key). -/
theorem start_override_sets_request_id (env : Env)
    (hkey : env.artifactLocationKey ≠ mockRequestIDTagKey) (tags : List entities.TraceTag)
    (hov : ∃ t ∈ tags, t.Key = mockRequestIDTagKey) :
    (∀ uuid experimentID timestampMS metadata db db' ti,
      TrackingSQLStore.SetTrace env uuid experimentID timestampMS metadata tags db
        = (.ok ti, db') →
      OverrideOutcome tags db db' ti.RequestID ti.Tags) ∧
    (∀ traceInfoV3 metadata db db' ti,
      TrackingSQLStore.SetTraceV3 env traceInfoV3 metadata tags db = some (.ok ti, db') →
      OverrideOutcome tags db db' ti.RequestID ti.Tags) := by
  constructor
  · intro uuid experimentID timestampMS metadata db db' ti h
    obtain ⟨_, hrid, _⟩ :=
      SetTrace_returned env uuid experimentID timestampMS metadata tags db db' ti h
    obtain ⟨location, hshape⟩ :=
      SetTrace_shape env uuid experimentID timestampMS metadata tags db db' ti h
    refine overrideOutcome_of_shape env.artifactLocationKey location hkey tags metadata hov
      db db' ti.RequestID ti.Tags ti.TraceRequestMetadata ?_ hshape
    intro pre t post hsplit ht hpost
    rw [hrid, hsplit]
    exact setTrace_tagLoop_requestID_of_override pre post t uuid [] ht hpost
  · intro traceInfoV3 metadata db db' ti h
    obtain ⟨_, hrid, _⟩ := SetTraceV3_returned env traceInfoV3 metadata tags db db' ti h
    obtain ⟨location, hshape⟩ := SetTraceV3_shape env traceInfoV3 metadata tags db db' ti h
    refine overrideOutcome_of_shape env.artifactLocationKey location hkey tags metadata hov
      db db' ti.RequestID ti.Tags ti.TraceRequestMetadata ?_ hshape
    intro pre t post hsplit ht hpost
    rw [hrid, hsplit]
    exact setTraceV3_tagLoop_requestID_of_override _ pre post t _ [] ht hpost

/-- Witness for C7: a legacy start and a v3 start with an ordinary tag before the
override tag. -/
theorem start_override_sets_request_id_witness :
    (∃ ti db', TrackingSQLStore.SetTrace exampleEnv "u" "1" 5 []
        [{ Key := "k", Value := "v" },
         { Key := "mock.generate_request_id.go.testing.tag", Value := "tr-1" }] noTrace
        = (.ok ti, db') ∧
      ti.RequestID = "tr-1" ∧
      OverrideOutcome
        [{ Key := "k", Value := "v" },
         { Key := "mock.generate_request_id.go.testing.tag", Value := "tr-1" }]
        noTrace db' ti.RequestID ti.Tags) ∧
    (∃ ti db', TrackingSQLStore.SetTraceV3 exampleEnv exampleTraceInfoV3 []
        [{ Key := "k", Value := "v" },
         { Key := "mock.generate_request_id.go.testing.tag", Value := "tr-1" }] noTrace
        = some (.ok ti, db') ∧
      ti.RequestID = "tr-1" ∧
      OverrideOutcome
        [{ Key := "k", Value := "v" },
         { Key := "mock.generate_request_id.go.testing.tag", Value := "tr-1" }]
        noTrace db' ti.RequestID ti.Tags) :=
  ⟨⟨_, _, rfl, rfl,
      (start_override_sets_request_id exampleEnv (by decide)
        [{ Key := "k", Value := "v" },
         { Key := "mock.generate_request_id.go.testing.tag", Value := "tr-1" }]
        ⟨{ Key := "mock.generate_request_id.go.testing.tag", Value := "tr-1" }, by simp,
          rfl⟩).1 "u" "1" 5 [] noTrace _ _ rfl⟩,
    ⟨_, _, rfl, rfl,
      (start_override_sets_request_id exampleEnv (by decide)
        [{ Key := "k", Value := "v" },
         { Key := "mock.generate_request_id.go.testing.tag", Value := "tr-1" }]
        ⟨{ Key := "mock.generate_request_id.go.testing.tag", Value := "tr-1" }, by simp,
          rfl⟩).2 exampleTraceInfoV3 [] noTrace _ _ rfl⟩⟩

/-- Counterexample to C7 as stated: a legacy start with the tags `k = v1`, `k = v2` and
the override tag succeeds under the `request_id` `tr-1`; the caller tag `k = v2` is among
the returned tags but not among the stored tag rows, which hold `k = v1`. -/
theorem start_override_later_tag_not_stored_counterexample :
    ∃ ti db', TrackingSQLStore.SetTrace exampleEnv "u" "1" 5 []
        [{ Key := "k", Value := "v1" }, { Key := "k", Value := "v2" },
         { Key := "mock.generate_request_id.go.testing.tag", Value := "tr-1" }] noTrace
        = (.ok ti, db') ∧
      ti.RequestID = "tr-1" ∧
      ({ Key := "k", Value := "v2", RequestID := "tr-1" } : entities.TraceTag) ∈ ti.Tags ∧
      db'.trace_tags
        = [{ Key := "k", Value := "v1", RequestID := "tr-1" },
           { Key := "mlflow.artifactLocation",
             Value := "file:///mlruns/1/traces/tr-1/artifacts", RequestID := "tr-1" }] ∧
      ({ Key := "k", Value := "v2", RequestID := "tr-1" } : models.TraceTag) ∉ db'.trace_tags :=
  ⟨_, _, rfl, rfl, by decide, by decide, by decide⟩

/-! ## Start: repeated keys -/

/-- C14 (as amended): for every successful `SetTrace` and every successful `SetTraceV3`
with any caller tag and metadata lists, the store keeps its primary keys, so the tag
rows of the resulting trace have pairwise distinct keys and so have its metadata rows:
a key repeated within one write yields a single row, and that row holds the value of
the first occurrence, when the store held no row under the `request_id` and that key
before. The trace returned by the call is built from the caller's lists: its tags are
the caller's tags other than the override tag, in order, followed by the synthesized
tag, and its metadata entries are the caller's entries, so a repeated key is repeated in
it. -/
theorem start_keeps_first_value_of_repeated_key (env : Env) (tags : List entities.TraceTag)
    (metadata : List entities.TraceRequestMetadata) :
    (∀ uuid experimentID timestampMS db db' ti,
      TrackingSQLStore.SetTrace env uuid experimentID timestampMS metadata tags db
        = (.ok ti, db') →
      RepeatedKeysOutcome env.artifactLocationKey tags metadata db db' ti.RequestID ti.Tags
        ti.TraceRequestMetadata) ∧
    (∀ traceInfoV3 db db' ti,
      TrackingSQLStore.SetTraceV3 env traceInfoV3 metadata tags db = some (.ok ti, db') →
      RepeatedKeysOutcome env.artifactLocationKey tags metadata db db' ti.RequestID ti.Tags
        ti.TraceRequestMetadata) := by
  constructor
  · intro uuid experimentID timestampMS db db' ti h
    obtain ⟨location, hshape⟩ :=
      SetTrace_shape env uuid experimentID timestampMS metadata tags db db' ti h
    exact repeatedKeysOutcome_of_shape env.artifactLocationKey location tags metadata db db'
      ti.RequestID ti.Tags ti.TraceRequestMetadata hshape
  · intro traceInfoV3 db db' ti h
    obtain ⟨location, hshape⟩ := SetTraceV3_shape env traceInfoV3 metadata tags db db' ti h
    exact repeatedKeysOutcome_of_shape env.artifactLocationKey location tags metadata db db'
      ti.RequestID ti.Tags ti.TraceRequestMetadata hshape

/-- Witness for C14: a legacy start and a v3 start whose lists repeat the keys `k` and
`m`. -/
theorem start_keeps_first_value_of_repeated_key_witness :
    (∃ ti db', TrackingSQLStore.SetTrace exampleEnv "u" "1" 5
        [{ Key := "m", Value := "1" }, { Key := "m", Value := "2" }]
        [{ Key := "k", Value := "v1" }, { Key := "k", Value := "v2" }] noTrace = (.ok ti, db') ∧
      RepeatedKeysOutcome exampleEnv.artifactLocationKey
        [{ Key := "k", Value := "v1" }, { Key := "k", Value := "v2" }]
        [{ Key := "m", Value := "1" }, { Key := "m", Value := "2" }]
        noTrace db' ti.RequestID ti.Tags ti.TraceRequestMetadata) ∧
    (∃ ti db', TrackingSQLStore.SetTraceV3 exampleEnv exampleTraceInfoV3
        [{ Key := "m", Value := "1" }, { Key := "m", Value := "2" }]
        [{ Key := "k", Value := "v1" }, { Key := "k", Value := "v2" }] noTrace
        = some (.ok ti, db') ∧
      RepeatedKeysOutcome exampleEnv.artifactLocationKey
        [{ Key := "k", Value := "v1" }, { Key := "k", Value := "v2" }]
        [{ Key := "m", Value := "1" }, { Key := "m", Value := "2" }]
        noTrace db' ti.RequestID ti.Tags ti.TraceRequestMetadata) :=
  ⟨⟨_, _, rfl,
      (start_keeps_first_value_of_repeated_key exampleEnv
        [{ Key := "k", Value := "v1" }, { Key := "k", Value := "v2" }]
        [{ Key := "m", Value := "1" }, { Key := "m", Value := "2" }]).1 "u" "1" 5 noTrace _ _
        rfl⟩,
    ⟨_, _, rfl,
      (start_keeps_first_value_of_repeated_key exampleEnv
        [{ Key := "k", Value := "v1" }, { Key := "k", Value := "v2" }]
        [{ Key := "m", Value := "1" }, { Key := "m", Value := "2" }]).2 exampleTraceInfoV3
        noTrace _ _ rfl⟩⟩

/-- Counterexample to C14 as stated: a legacy start and a v3 start whose tag list
repeats the key `k` and whose metadata list repeats the key `m` succeed. The returned
trace holds both tags under `k` and both entries under `m`, so its keys are not pairwise
distinct; the stored rows hold `k = v1` and `m = 1`, the earlier values, not the later
ones. -/
theorem start_repeated_keys_counterexample :
    (∃ ti db', TrackingSQLStore.SetTrace exampleEnv "u" "1" 5
        [{ Key := "m", Value := "1" }, { Key := "m", Value := "2" }]
        [{ Key := "k", Value := "v1" }, { Key := "k", Value := "v2" }] noTrace = (.ok ti, db') ∧
      ti.Tags.map (fun t => (t.Key, t.Value))
        = [("k", "v1"), ("k", "v2"),
           ("mlflow.artifactLocation", "file:///mlruns/1/traces/u/artifacts")] ∧
      ti.TraceRequestMetadata.map (fun m => (m.Key, m.Value)) = [("m", "1"), ("m", "2")] ∧
      ¬ (ti.Tags.map (fun t => t.Key)).Nodup ∧
      ¬ (ti.TraceRequestMetadata.map (fun m => m.Key)).Nodup ∧
      db'.trace_tags
        = [{ Key := "k", Value := "v1", RequestID := "u" },
           { Key := "mlflow.artifactLocation",
             Value := "file:///mlruns/1/traces/u/artifacts", RequestID := "u" }] ∧
      db'.trace_request_metadata = [{ Key := "m", Value := "1", RequestID := "u" }]) ∧
    (∃ ti db', TrackingSQLStore.SetTraceV3 exampleEnv exampleTraceInfoV3
        [{ Key := "m", Value := "1" }, { Key := "m", Value := "2" }]
        [{ Key := "k", Value := "v1" }, { Key := "k", Value := "v2" }] noTrace
        = some (.ok ti, db') ∧
      ¬ (ti.Tags.map (fun t => t.Key)).Nodup ∧
      ¬ (ti.TraceRequestMetadata.map (fun m => m.Key)).Nodup ∧
      db'.trace_tags
        = [{ Key := "k", Value := "v1", RequestID := "tr-0" },
           { Key := "mlflow.artifactLocation",
             Value := "file:///mlruns/1/traces/tr-0/artifacts", RequestID := "tr-0" }] ∧
      db'.trace_request_metadata = [{ Key := "m", Value := "1", RequestID := "tr-0" }]) :=
  ⟨⟨_, _, rfl, by decide, by decide, by decide, by decide, by decide, by decide⟩,
    ⟨_, _, rfl, by decide, by decide, by decide, by decide⟩⟩

/-! ## Start: the `request_id` of the rows -/

/-- C15: for every successful `SetTrace` and every successful `SetTraceV3`, with or
without the override tag and wherever it sits in the caller's tag list, the trace row
is stored under the final `request_id`, the one the trace is returned under, and every
tag and metadata entry of the returned trace and every tag row and metadata row that
the start wrote carries that `request_id`. -/
theorem start_rows_carry_final_request_id (env : Env) (tags : List entities.TraceTag)
    (metadata : List entities.TraceRequestMetadata) :
    (∀ uuid experimentID timestampMS db db' ti,
      TrackingSQLStore.SetTrace env uuid experimentID timestampMS metadata tags db
        = (.ok ti, db') →
      RowsCarryRequestID db db' ti.RequestID ti.Tags ti.TraceRequestMetadata) ∧
    (∀ traceInfoV3 db db' ti,
      TrackingSQLStore.SetTraceV3 env traceInfoV3 metadata tags db = some (.ok ti, db') →
      RowsCarryRequestID db db' ti.RequestID ti.Tags ti.TraceRequestMetadata) := by
  constructor
  · intro uuid experimentID timestampMS db db' ti h
    obtain ⟨location, hshape⟩ :=
      SetTrace_shape env uuid experimentID timestampMS metadata tags db db' ti h
    exact rowsCarryRequestID_of_shape env.artifactLocationKey location tags metadata db db'
      ti.RequestID ti.Tags ti.TraceRequestMetadata hshape
  · intro traceInfoV3 db db' ti h
    obtain ⟨location, hshape⟩ := SetTraceV3_shape env traceInfoV3 metadata tags db db' ti h
    exact rowsCarryRequestID_of_shape env.artifactLocationKey location tags metadata db db'
      ti.RequestID ti.Tags ti.TraceRequestMetadata hshape

/-- Witness for C15: a legacy start with the override tag between two tags, and a v3
start with the override tag first; both traces are stored and returned under `tr-1`. -/
theorem start_rows_carry_final_request_id_witness :
    (∃ ti db', TrackingSQLStore.SetTrace exampleEnv "u" "1" 5 [{ Key := "m", Value := "1" }]
        [{ Key := "k", Value := "v" },
         { Key := "mock.generate_request_id.go.testing.tag", Value := "tr-1" },
         { Key := "l", Value := "w" }] noTrace = (.ok ti, db') ∧
      ti.RequestID = "tr-1" ∧
      RowsCarryRequestID noTrace db' ti.RequestID ti.Tags ti.TraceRequestMetadata) ∧
    (∃ ti db', TrackingSQLStore.SetTraceV3 exampleEnv exampleTraceInfoV3
        [{ Key := "m", Value := "1" }]
        [{ Key := "mock.generate_request_id.go.testing.tag", Value := "tr-1" },
         { Key := "k", Value := "v" }] noTrace = some (.ok ti, db') ∧
      ti.RequestID = "tr-1" ∧
      RowsCarryRequestID noTrace db' ti.RequestID ti.Tags ti.TraceRequestMetadata) :=
  ⟨⟨_, _, rfl, rfl,
      (start_rows_carry_final_request_id exampleEnv
        [{ Key := "k", Value := "v" },
         { Key := "mock.generate_request_id.go.testing.tag", Value := "tr-1" },
         { Key := "l", Value := "w" }] [{ Key := "m", Value := "1" }]).1 "u" "1" 5 noTrace _ _
        rfl⟩,
    ⟨_, _, rfl, rfl,
      (start_rows_carry_final_request_id exampleEnv
        [{ Key := "mock.generate_request_id.go.testing.tag", Value := "tr-1" },
         { Key := "k", Value := "v" }] [{ Key := "m", Value := "1" }]).2 exampleTraceInfoV3
        noTrace _ _ rfl⟩⟩

/-! ## End: a statement that fails -/

/-- An end call on a trace that exists whose `UpdateColumns` statement fails returns an
`INTERNAL_ERROR` and leaves the state as it was. -/
theorem endTrace_update_fault_rolls_back (faults : EndTraceFaults) (cause requestID : String)
    (t1 : Int) (status : String) (metadata : List entities.TraceRequestMetadata)
    (tags : List entities.TraceTag) (db : DB) (row : models.TraceInfo)
    (hrow : db.trace_info.find? (fun r => r.RequestID == requestID) = some row)
    (hfault : faults.update = some cause) :
    TrackingSQLStore.EndTrace faults requestID t1 status metadata tags db
      = (.error (NewErrorWith .INTERNAL_ERROR
          ("failed to update trace with request_id '" ++ requestID ++ "'") cause), db) := by
  simp [TrackingSQLStore.EndTrace, TrackingSQLStore.GetTraceInfo, hrow, hfault]

/-- An end call on a trace that exists whose second lookup fails returns an
`INTERNAL_ERROR` after the commit: the status of the trace is the declared one. -/
theorem endTrace_refetch_fault_after_commit :
    ∃ err db', TrackingSQLStore.EndTrace { refetch := some "connection lost" } "a" 12 "OK"
        [] [] oneTrace = (.error err, db') ∧
      err.Code = .INTERNAL_ERROR ∧ statusOf db' "a" = some "OK" :=
  ⟨_, _, rfl, rfl, rfl⟩

end Mlflow
